import Mathlib

/-!
Verification of the Contract_Risk_Assessment repository's risk-scoring and
detection pipeline against its natural-language specification.

The definitions below are a shallow embedding of the Python sources:
 * src/src/contract_analysis/imp_risk_scorer.py (RiskLevel, RiskScore, scorers)
 * src/src/contract_analysis/imp_tools_integration.py (tool adapters)
 * src/scripts/loophole_detection.py (custom rules, pattern-model matching)
 * src/scripts/train_model.py (model training, severity tables)

Python strings are Lean Strings, Python dicts are insertion-ordered
association lists, Python ints are Nat where the source only ever holds
non-negative values.  Regular-expression semantics are embedded by a small
backtracking engine mirroring CPython re (leftmost match, ordered
alternation, greedy/lazy quantifiers).
-/

namespace ContractRisk

/-! ## Python string primitives -/

/-- Python str.isspace-style whitespace test for the ASCII whitespace
characters recognised by str.strip and the regex class backslash-s. -/
def pyWs (c : Char) : Bool :=
  c = ' ' || c = '\t' || c = '\n' || c = '\r' || c = Char.ofNat 11 || c = Char.ofNat 12

/-- Python str.lower (ASCII range, which covers every use in the sources). -/
def pyLower (s : String) : String :=
  (s.toList.map Char.toLower).asString

/-- Python str.upper (ASCII range). -/
def pyUpper (s : String) : String :=
  (s.toList.map Char.toUpper).asString

/-- Python str.strip with no argument: remove leading and trailing whitespace. -/
def pyStrip (s : String) : String :=
  (((s.toList.dropWhile pyWs).reverse.dropWhile pyWs).reverse).asString

/-- Python str.capitalize: first character upper-cased, the rest lower-cased. -/
def pyCapitalize (s : String) : String :=
  match s.toList with
  | [] => ""
  | c :: cs => (Char.toUpper c :: cs.map Char.toLower).asString

/-- Python s[:n] on strings (character slicing from the start). -/
def pyTake (n : Nat) (s : String) : String :=
  (s.toList.take n).asString

/-- Python s[a:b] on strings (character slicing). -/
def pySlice (s : String) (a b : Nat) : String :=
  ((s.toList.drop a).take (b - a)).asString

/-- Does the pattern occur at the head of the character list? -/
def headMatch : List Char → List Char → Bool
  | [], _ => true
  | _ :: _, [] => false
  | p :: ps, c :: cs => p = c && headMatch ps cs

/-- First index at or after i where pat occurs in s, as in Python str.find. -/
def findFromAux (pat : List Char) : List Char → Nat → Option Nat
  | [], i => if pat = [] then some i else none
  | c :: cs, i => if headMatch pat (c :: cs) then some i else findFromAux pat cs (i + 1)

/-- Python s.find(pat, start): index of first occurrence at or after start,
returned as an Option instead of the -1 sentinel. -/
def pyFindFrom (s pat : String) (start : Nat) : Option Nat :=
  match findFromAux pat.toList (s.toList.drop start) 0 with
  | some j => some (start + j)
  | none => none

/-- Python "pat in s" substring containment test. -/
def pyContains (s pat : String) : Bool :=
  (pyFindFrom s pat 0).isSome

/-- Python s.rfind(sub, 0, end): index of the last occurrence of sub that
starts strictly before end, as an Option instead of the -1 sentinel. -/
def pyRfindBefore (s pat : String) (e : Nat) : Option Nat :=
  (List.range e).reverse.find? (fun i => headMatch pat.toList (s.toList.drop i))

/-- Python s.count(sub) restricted to counting a single character
(the sources only count newline characters and semicolons). -/
def pyCountChar (s : String) (c : Char) : Nat :=
  s.toList.countP (fun x => decide (x = c))

/-- Python str.splitlines for the line terminators appearing in the corpus:
newline, carriage return, and CRLF.  A trailing terminator does not produce
a trailing empty line. -/
def pySplitlines (s : String) : List String :=
  let rec go (acc : List Char) : List Char → List String
    | [] => if acc = [] then [] else [acc.reverse.asString]
    | '\r' :: '\n' :: rest => acc.reverse.asString :: go [] rest
    | '\r' :: rest => acc.reverse.asString :: go [] rest
    | '\n' :: rest => acc.reverse.asString :: go [] rest
    | c :: rest => go (c :: acc) rest
  go [] s.toList

/-- Insertion-ordered association-list lookup (Python dict access). -/
def assocLookup {α : Type} : List (String × α) → String → Option α
  | [], _ => none
  | (k, v) :: rest, key => if k = key then some v else assocLookup rest key

/-- Replace the value stored under the first occurrence of the key
(Python dict item assignment for an existing key). -/
def assocSet {α : Type} : List (String × α) → String → α → List (String × α)
  | [], _, _ => []
  | (k, v) :: rest, key, v2 => if k = key then (k, v2) :: rest else (k, v) :: assocSet rest key v2

theorem assocLookup_eq_none_of_not_mem {α : Type} (l : List (String × α)) (key : String)
    (h : key ∉ l.map Prod.fst) : assocLookup l key = none := by
  induction l with
  | nil => rfl
  | cons p rest ih =>
      simp only [List.map_cons, List.mem_cons] at h
      push_neg at h
      simp only [assocLookup]
      rw [if_neg (fun he => h.1 he.symm)]
      exact ih h.2

/-! ## RiskLevel — imp_risk_scorer.py lines 9-38 -/

/-- Risk level enumeration (class RiskLevel(Enum)). -/
inductive RiskLevel
  | NONE
  | LOW
  | MEDIUM
  | HIGH
  | CRITICAL
deriving DecidableEq

/-- The Enum numeric value of each member. -/
def RiskLevel.value : RiskLevel → Nat
  | .NONE => 0
  | .LOW => 1
  | .MEDIUM => 2
  | .HIGH => 3
  | .CRITICAL => 4

/-- RiskLevel.to_string: dictionary lookup with default "Unknown"; every
member is a key, so the default branch is unreachable but kept faithful. -/
def RiskLevel.to_string (l : RiskLevel) : String :=
  match l with
  | .NONE => "None"
  | .LOW => "Low"
  | .MEDIUM => "Medium"
  | .HIGH => "High"
  | .CRITICAL => "Critical"

/-- The level_map dictionary inside RiskLevel.from_string. -/
def level_map : List (String × RiskLevel) :=
  [("none", RiskLevel.NONE), ("low", RiskLevel.LOW), ("medium", RiskLevel.MEDIUM),
   ("high", RiskLevel.HIGH), ("critical", RiskLevel.CRITICAL)]

/-- RiskLevel.from_string: level_map.get(level_str.lower(), cls.LOW) —
the source defaults to LOW on an unrecognized string. -/
def RiskLevel.from_string (level_str : String) : RiskLevel :=
  (assocLookup level_map (pyLower level_str)).getD RiskLevel.LOW

/-! ## RiskScore — imp_risk_scorer.py lines 41-151 -/

/-- One recorded vulnerability dict (RiskScore.add_vulnerability body). -/
structure Vulnerability where
  name : String
  description : String
  risk_level : RiskLevel
  risk_level_str : String
  category : String
  location : Option String
  remediation : Option String
deriving DecidableEq

/-- Per-category statistics dict in RiskScore.risk_categories. -/
structure CategoryStats where
  count : Nat
  max_level : RiskLevel
  score : Nat
deriving DecidableEq

/-- The RiskScore container state. -/
structure RiskScore where
  vulnerabilities : List Vulnerability
  total_score : Nat
  max_risk_level : RiskLevel
  risk_categories : List (String × CategoryStats)
deriving DecidableEq

/-- RiskScore.__init__. -/
def RiskScore.init : RiskScore :=
  { vulnerabilities := [], total_score := 0, max_risk_level := RiskLevel.NONE,
    risk_categories := [] }

/-- RiskScore._get_risk_weight: weights.get(level, 0); every member is a key. -/
def _get_risk_weight (level : RiskLevel) : Nat :=
  match level with
  | .NONE => 0
  | .LOW => 1
  | .MEDIUM => 3
  | .HIGH => 7
  | .CRITICAL => 15

/-- RiskScore.add_vulnerability, translated step by step from the source. -/
def RiskScore.add_vulnerability (st : RiskScore) (name description : String)
    (risk_level : RiskLevel) (category : String)
    (location remediation : Option String) : RiskScore :=
  let vuln : Vulnerability :=
    { name := name, description := description, risk_level := risk_level,
      risk_level_str := RiskLevel.to_string risk_level, category := category,
      location := location, remediation := remediation }
  let vulns := st.vulnerabilities ++ [vuln]
  let maxl :=
    if risk_level.value > st.max_risk_level.value then risk_level else st.max_risk_level
  let cats0 :=
    if (assocLookup st.risk_categories category).isNone then
      st.risk_categories ++ [(category, { count := 0, max_level := RiskLevel.NONE, score := 0 })]
    else st.risk_categories
  let stats := (assocLookup cats0 category).getD { count := 0, max_level := RiskLevel.NONE, score := 0 }
  let stats1 : CategoryStats := { stats with count := stats.count + 1 }
  let stats2 : CategoryStats :=
    if risk_level.value > stats1.max_level.value then { stats1 with max_level := risk_level }
    else stats1
  let w := _get_risk_weight risk_level
  let stats3 : CategoryStats := { stats2 with score := stats2.score + w }
  { vulnerabilities := vulns,
    total_score := st.total_score + w,
    max_risk_level := maxl,
    risk_categories := assocSet cats0 category stats3 }

/-- RiskScore.get_overall_risk_level: the ascending threshold chain. -/
def RiskScore.get_overall_risk_level (st : RiskScore) : RiskLevel :=
  if st.total_score = 0 then RiskLevel.NONE
  else if st.total_score < 3 then RiskLevel.LOW
  else if st.total_score < 8 then RiskLevel.MEDIUM
  else if st.total_score < 18 then RiskLevel.HIGH
  else RiskLevel.CRITICAL

/-- The level_counts computation inside RiskScore.get_summary: the number of
recorded vulnerabilities carrying a given risk level (severity histogram). -/
def RiskScore.level_count (st : RiskScore) (l : RiskLevel) : Nat :=
  st.vulnerabilities.countP (fun v => decide (v.risk_level = l))

/-- Per-category summary entry built in RiskScore.get_summary. -/
structure CategorySummary where
  count : Nat
  max_level : String
  score : Nat
deriving DecidableEq

/-- The summary dict built by RiskScore.get_summary. -/
structure RiskSummary where
  total_score : Nat
  overall_risk_level : RiskLevel
  overall_risk_str : String
  vulnerability_count : Nat
  dist_none : Nat
  dist_low : Nat
  dist_medium : Nat
  dist_high : Nat
  dist_critical : Nat
  categories : List (String × CategorySummary)
deriving DecidableEq

/-- RiskScore.get_summary. -/
def RiskScore.get_summary (st : RiskScore) : RiskSummary :=
  let overall := st.get_overall_risk_level
  { total_score := st.total_score,
    overall_risk_level := overall,
    overall_risk_str := RiskLevel.to_string overall,
    vulnerability_count := st.vulnerabilities.length,
    dist_none := st.level_count RiskLevel.NONE,
    dist_low := st.level_count RiskLevel.LOW,
    dist_medium := st.level_count RiskLevel.MEDIUM,
    dist_high := st.level_count RiskLevel.HIGH,
    dist_critical := st.level_count RiskLevel.CRITICAL,
    categories := st.risk_categories.map (fun p =>
      (p.1, { count := p.2.count, max_level := RiskLevel.to_string p.2.max_level,
              score := p.2.score })) }

/-- Arguments of one RiskScore.add_vulnerability call. -/
structure AddCall where
  name : String
  description : String
  risk_level : RiskLevel
  category : String
  location : Option String
  remediation : Option String
deriving DecidableEq

/-- Run a sequence of add_vulnerability calls on a fresh RiskScore,
modelling the aggregation path of the Risk Aggregator. -/
def runAdds (calls : List AddCall) : RiskScore :=
  calls.foldl
    (fun st c => st.add_vulnerability c.name c.description c.risk_level c.category
      c.location c.remediation) RiskScore.init

/-! ## Basic facts about add_vulnerability -/

theorem add_vulnerability_total_score (st : RiskScore) (n d : String) (rl : RiskLevel)
    (cat : String) (loc rem : Option String) :
    (st.add_vulnerability n d rl cat loc rem).total_score = st.total_score + _get_risk_weight rl :=
  rfl

theorem add_vulnerability_vulnerabilities (st : RiskScore) (n d : String) (rl : RiskLevel)
    (cat : String) (loc rem : Option String) :
    (st.add_vulnerability n d rl cat loc rem).vulnerabilities =
      st.vulnerabilities ++ [⟨n, d, rl, RiskLevel.to_string rl, cat, loc, rem⟩] :=
  rfl

theorem add_vulnerability_max_risk_level (st : RiskScore) (n d : String) (rl : RiskLevel)
    (cat : String) (loc rem : Option String) :
    (st.add_vulnerability n d rl cat loc rem).max_risk_level =
      if rl.value > st.max_risk_level.value then rl else st.max_risk_level :=
  rfl

theorem runAdds_append (calls : List AddCall) (f : AddCall) :
    runAdds (calls ++ [f]) =
      (runAdds calls).add_vulnerability f.name f.description f.risk_level f.category
        f.location f.remediation := by
  simp [runAdds, List.foldl_append]

/-! ## Tool-specific severity tables — imp_tools_integration.py lines 365-377
and train_model.py lines 131-157 -/

/-- The severity_map dictionary in OyenteAnalyzer._get_severity_for_issue. -/
def oyente_severity_map : List (String × String) :=
  [("reentrancy", "High"),
   ("timestamp_dependency", "Medium"),
   ("assertion_failure", "High"),
   ("integer_overflow", "High"),
   ("integer_underflow", "Medium"),
   ("money_concurrency", "High"),
   ("transaction_ordering_dependence", "Medium"),
   ("parity_multisig_bug", "Critical")]

/-- OyenteAnalyzer._get_severity_for_issue:
severity_map.get(issue_type.lower(), 'Medium'). -/
def OyenteAnalyzer_get_severity_for_issue (issue_type : String) : String :=
  (assocLookup oyente_severity_map (pyLower issue_type)).getD "Medium"

/-- The severity_map dictionary in train_model.get_severity_for_vulnerability;
the mixed-case keys are kept exactly as written in the source even though the
lower-cased lookup key can never equal them. -/
def trainmodel_severity_map : List (String × String) :=
  [("reentrancy", "High"),
   ("reentrancy-eth", "High"),
   ("reentrancy-no-eth", "Medium"),
   ("unchecked-transfer", "High"),
   ("unchecked-lowlevel", "High"),
   ("unchecked-send", "Medium"),
   ("tx-origin", "High"),
   ("TX_Origin_Usage", "High"),
   ("timestamp", "Medium"),
   ("Timestamp_Dependency", "Medium"),
   ("Integer_Overflow_Underflow_Candidate_Basic", "Medium"),
   ("uninitialized-local", "Medium"),
   ("uninitialized-storage", "High"),
   ("unused-return", "Medium"),
   ("incorrect-equality", "Medium"),
   ("shadowing-state", "Medium"),
   ("suicidal", "High"),
   ("arbitrary-send", "High"),
   ("locked-ether", "Medium"),
   ("Low_Level_Call", "Medium")]

/-- train_model.get_severity_for_vulnerability:
severity_map.get(vuln_type.lower(), 'Medium'). -/
def get_severity_for_vulnerability (vuln_type : String) : String :=
  (assocLookup trainmodel_severity_map (pyLower vuln_type)).getD "Medium"

/-! ## Claim C1 -/

/-- C1 counterexample: the claim says an unrecognized severity string is
normalized to Unknown with weight 0; on the concrete string "bogus" the code
yields the Low level, whose printable form is "Low" (not "Unknown") and whose
weight is 1 (not 0). -/
theorem C1_unknown_severity_counterexample :
    RiskLevel.from_string "bogus" = RiskLevel.LOW ∧
    RiskLevel.to_string (RiskLevel.from_string "bogus") ≠ "Unknown" ∧
    _get_risk_weight (RiskLevel.from_string "bogus") = 1 ∧
    _get_risk_weight (RiskLevel.from_string "bogus") ≠ 0 := by
  decide

/-- C1 (amended): for every severity string whose lower-cased form is outside
the recognized vocabulary, RiskLevel.from_string normalizes it to Low, whose
risk weight is 1, and the Finding is still appended to the vulnerability list
(never dropped) by add_vulnerability. -/
theorem C1_unrecognized_severity_low_weight_one_kept (s : String)
    (h : pyLower s ∉ ["none", "low", "medium", "high", "critical"]) :
    RiskLevel.from_string s = RiskLevel.LOW ∧
    _get_risk_weight (RiskLevel.from_string s) = 1 ∧
    ∀ (st : RiskScore) (n d cat : String) (loc rem : Option String),
      (st.add_vulnerability n d (RiskLevel.from_string s) cat loc rem).vulnerabilities =
        st.vulnerabilities ++ [⟨n, d, RiskLevel.LOW, "Low", cat, loc, rem⟩] := by
  have hkeys : pyLower s ∉ level_map.map Prod.fst := by
    simpa [level_map] using h
  have hnone : assocLookup level_map (pyLower s) = none :=
    assocLookup_eq_none_of_not_mem _ _ hkeys
  have hfs : RiskLevel.from_string s = RiskLevel.LOW := by
    simp [RiskLevel.from_string, hnone]
  refine ⟨hfs, by rw [hfs]; rfl, ?_⟩
  intro st n d cat loc rem
  rw [hfs]
  exact add_vulnerability_vulnerabilities st n d RiskLevel.LOW cat loc rem

/-- C1 witness: the amended theorem applied at the concrete string "bogus"
and a concrete RiskScore state. -/
theorem C1_unrecognized_severity_low_weight_one_kept_witness :
    RiskLevel.from_string "bogus" = RiskLevel.LOW ∧
    (RiskScore.init.add_vulnerability "n" "d" (RiskLevel.from_string "bogus") "Security"
        none none).vulnerabilities =
      [⟨"n", "d", RiskLevel.LOW, "Low", "Security", none, none⟩] :=
  ⟨(C1_unrecognized_severity_low_weight_one_kept "bogus" (by decide)).1,
   (C1_unrecognized_severity_low_weight_one_kept "bogus" (by decide)).2.2
      RiskScore.init "n" "d" "Security" none none⟩

/-! ## Claim C4 -/

/-- C4: overall risk level is derived from total_score by the fixed ascending
thresholds with exclusive lower bounds: after any sequence of
add_vulnerability calls, total 0 yields None, (0,3) yields Low, [3,8) yields
Medium, [8,18) yields High, and [18,∞) yields Critical. -/
theorem C4_threshold_bands (calls : List AddCall) :
    ((runAdds calls).total_score = 0 →
      (runAdds calls).get_overall_risk_level = RiskLevel.NONE) ∧
    (0 < (runAdds calls).total_score → (runAdds calls).total_score < 3 →
      (runAdds calls).get_overall_risk_level = RiskLevel.LOW) ∧
    (3 ≤ (runAdds calls).total_score → (runAdds calls).total_score < 8 →
      (runAdds calls).get_overall_risk_level = RiskLevel.MEDIUM) ∧
    (8 ≤ (runAdds calls).total_score → (runAdds calls).total_score < 18 →
      (runAdds calls).get_overall_risk_level = RiskLevel.HIGH) ∧
    (18 ≤ (runAdds calls).total_score →
      (runAdds calls).get_overall_risk_level = RiskLevel.CRITICAL) := by
  refine ⟨?_, ?_, ?_, ?_, ?_⟩ <;>
    intros <;>
    simp only [RiskScore.get_overall_risk_level] <;>
    split_ifs <;>
    first
      | rfl
      | omega

/-- C4 witness: a single Medium finding has weight exactly 3 and lands in the
Medium band (3 is Medium, not Low). -/
theorem C4_threshold_bands_witness :
    (runAdds [⟨"a", "b", RiskLevel.MEDIUM, "Security", none, none⟩]).get_overall_risk_level =
      RiskLevel.MEDIUM :=
  (C4_threshold_bands [⟨"a", "b", RiskLevel.MEDIUM, "Security", none, none⟩]).2.2.1
    (by decide) (by decide)

/-! ## Claim C5 -/

/-- C5 counterexample: the claim says unrecognized tool-specific severity
values map to Unknown; on the concrete value "bogus" both per-tool tables
yield "Medium", not "Unknown". -/
theorem C5_severity_table_counterexample :
    OyenteAnalyzer_get_severity_for_issue "bogus" = "Medium" ∧
    get_severity_for_vulnerability "bogus" = "Medium" ∧
    OyenteAnalyzer_get_severity_for_issue "bogus" ≠ "Unknown" ∧
    get_severity_for_vulnerability "bogus" ≠ "Unknown" := by
  decide

/-- C5 (amended): tool-specific severity vocabularies are mapped through the
explicit per-tool tables, and every value whose lower-cased form is absent
from the table maps to "Medium" (the finding is kept, not dropped). -/
theorem C5_unrecognized_severity_maps_to_medium (s : String)
    (h1 : pyLower s ∉ oyente_severity_map.map Prod.fst)
    (h2 : pyLower s ∉ trainmodel_severity_map.map Prod.fst) :
    OyenteAnalyzer_get_severity_for_issue s = "Medium" ∧
    get_severity_for_vulnerability s = "Medium" := by
  constructor
  · have h := assocLookup_eq_none_of_not_mem _ _ h1
    simp [OyenteAnalyzer_get_severity_for_issue, h]
  · have h := assocLookup_eq_none_of_not_mem _ _ h2
    simp [get_severity_for_vulnerability, h]

/-- C5 witness: the amended theorem applied at the concrete value "bogus". -/
theorem C5_unrecognized_severity_maps_to_medium_witness :
    OyenteAnalyzer_get_severity_for_issue "bogus" = "Medium" ∧
    get_severity_for_vulnerability "bogus" = "Medium" :=
  C5_unrecognized_severity_maps_to_medium "bogus" (by decide) (by decide)

/-! ## Claim C7 -/

/-- C7: monotonicity of aggregation — appending a finding to the input list
never decreases total_score and never decreases any severity-histogram
bucket, and the bucket of the appended finding's own level grows by one. -/
theorem C7_aggregation_monotone (calls : List AddCall) (f : AddCall) :
    (runAdds calls).total_score ≤ (runAdds (calls ++ [f])).total_score ∧
    (∀ l : RiskLevel,
      (runAdds calls).level_count l ≤ (runAdds (calls ++ [f])).level_count l) ∧
    (runAdds (calls ++ [f])).level_count f.risk_level =
      (runAdds calls).level_count f.risk_level + 1 := by
  rw [runAdds_append]
  refine ⟨?_, ?_, ?_⟩
  · rw [add_vulnerability_total_score]
    exact Nat.le_add_right _ _
  · intro l
    simp only [RiskScore.level_count, add_vulnerability_vulnerabilities, List.countP_append]
    exact Nat.le_add_right _ _
  · simp [RiskScore.level_count, add_vulnerability_vulnerabilities, List.countP_append,
      List.countP_cons]

/-! ## Claim C9: accounting invariant of RiskScore

Specification-side measures of the recorded vulnerability list. -/

/-- Sum of the risk weights of a vulnerability list. -/
def sumWeights (vs : List Vulnerability) : Nat :=
  (vs.map (fun v => _get_risk_weight v.risk_level)).sum

/-- Sum of the per-category score fields of the category table. -/
def sumCatScores (cats : List (String × CategoryStats)) : Nat :=
  (cats.map (fun p => p.2.score)).sum

/-- Number of recorded vulnerabilities in a given category. -/
def catCount (vs : List Vulnerability) (cat : String) : Nat :=
  vs.countP (fun v => decide (v.category = cat))

/-- Summed weight of the recorded vulnerabilities in a given category. -/
def catWeight (vs : List Vulnerability) (cat : String) : Nat :=
  ((vs.filter (fun v => decide (v.category = cat))).map
    (fun v => _get_risk_weight v.risk_level)).sum

/-- Maximum risk-level numeric value over a vulnerability list (0 if empty). -/
def maxValue (vs : List Vulnerability) : Nat :=
  (vs.map (fun v => v.risk_level.value)).foldl Nat.max 0

theorem sumWeights_append (vs : List Vulnerability) (v : Vulnerability) :
    sumWeights (vs ++ [v]) = sumWeights vs + _get_risk_weight v.risk_level := by
  simp [sumWeights]

theorem catCount_append (vs : List Vulnerability) (v : Vulnerability) (cat : String) :
    catCount (vs ++ [v]) cat = catCount vs cat + (if v.category = cat then 1 else 0) := by
  simp [catCount, List.countP_append, List.countP_cons]

theorem catWeight_append (vs : List Vulnerability) (v : Vulnerability) (cat : String) :
    catWeight (vs ++ [v]) cat =
      catWeight vs cat + (if v.category = cat then _get_risk_weight v.risk_level else 0) := by
  by_cases h : v.category = cat <;> simp [catWeight, List.filter_append, h]

theorem maxValue_append (vs : List Vulnerability) (v : Vulnerability) :
    maxValue (vs ++ [v]) = Nat.max (maxValue vs) v.risk_level.value := by
  simp [maxValue, List.foldl_append]

theorem assocLookup_append_single_self {α : Type} (l : List (String × α)) (k : String) (v : α)
    (h : assocLookup l k = none) : assocLookup (l ++ [(k, v)]) k = some v := by
  induction l with
  | nil => simp [assocLookup]
  | cons p rest ih =>
      simp only [assocLookup] at h ⊢
      by_cases hk : p.1 = k
      · rw [if_pos hk] at h; exact absurd h (by simp)
      · rw [if_neg hk] at h ⊢
        exact ih h

theorem assocLookup_append_single_ne {α : Type} (l : List (String × α)) (k k2 : String) (v : α)
    (h : k2 ≠ k) : assocLookup (l ++ [(k, v)]) k2 = assocLookup l k2 := by
  induction l with
  | nil =>
      simp only [List.nil_append, assocLookup]
      rw [if_neg (fun he => h he.symm)]
  | cons p rest ih =>
      simp only [assocLookup, List.cons_append]
      by_cases hk : p.1 = k2
      · rw [if_pos hk, if_pos hk]
      · rw [if_neg hk, if_neg hk]
        exact ih

theorem assocSet_lookup_self {α : Type} (l : List (String × α)) (k : String) (s v : α)
    (h : assocLookup l k = some s) : assocLookup (assocSet l k v) k = some v := by
  induction l with
  | nil => simp [assocLookup] at h
  | cons p rest ih =>
      simp only [assocLookup, assocSet] at h ⊢
      by_cases hk : p.1 = k
      · rw [if_pos hk]
        simp only [assocLookup]
        rw [if_pos hk]
      · rw [if_neg hk] at h
        rw [if_neg hk]
        simp only [assocLookup]
        rw [if_neg hk]
        exact ih h

theorem assocSet_lookup_ne {α : Type} (l : List (String × α)) (k k2 : String) (v : α)
    (h : k2 ≠ k) : assocLookup (assocSet l k v) k2 = assocLookup l k2 := by
  induction l with
  | nil => rfl
  | cons p rest ih =>
      simp only [assocLookup, assocSet]
      by_cases hk : p.1 = k
      · rw [if_pos hk]
        simp only [assocLookup]
        rw [if_neg (by rw [hk]; exact fun he => h he.symm),
            if_neg (by rw [hk]; exact fun he => h he.symm)]
      · rw [if_neg hk]
        simp only [assocLookup]
        by_cases hk2 : p.1 = k2
        · rw [if_pos hk2, if_pos hk2]
        · rw [if_neg hk2, if_neg hk2]
          exact ih

theorem assocSet_keys {α : Type} (l : List (String × α)) (k : String) (v : α) :
    (assocSet l k v).map Prod.fst = l.map Prod.fst := by
  induction l with
  | nil => rfl
  | cons p rest ih =>
      simp only [assocSet]
      by_cases hk : p.1 = k
      · rw [if_pos hk]; simp
      · rw [if_neg hk]; simp [ih]

theorem assocLookup_isSome_of_mem_keys {α : Type} (l : List (String × α)) (k : String)
    (h : k ∈ l.map Prod.fst) : (assocLookup l k).isSome := by
  induction l with
  | nil => simp at h
  | cons p rest ih =>
      simp only [List.map_cons, List.mem_cons] at h
      simp only [assocLookup]
      by_cases hk : p.1 = k
      · rw [if_pos hk]; rfl
      · rw [if_neg hk]
        exact ih (h.resolve_left (fun he => hk he.symm))

theorem sumCatScores_assocSet (l : List (String × CategoryStats)) (k : String)
    (s v : CategoryStats) (h : assocLookup l k = some s) :
    sumCatScores (assocSet l k v) + s.score = sumCatScores l + v.score := by
  induction l with
  | nil => simp [assocLookup] at h
  | cons p rest ih =>
      simp only [assocLookup, assocSet] at h ⊢
      by_cases hk : p.1 = k
      · rw [if_pos hk] at h
        rw [if_pos hk]
        injection h with h
        subst h
        simp [sumCatScores]
        omega
      · rw [if_neg hk] at h
        rw [if_neg hk]
        have := ih h
        simp only [sumCatScores, List.map_cons, List.sum_cons] at this ⊢
        omega

theorem assocLookup_of_mem_nodup {α : Type} (l : List (String × α)) (k : String) (v : α)
    (hmem : (k, v) ∈ l) (hnd : (l.map Prod.fst).Nodup) : assocLookup l k = some v := by
  induction l with
  | nil => simp at hmem
  | cons p rest ih =>
      simp only [List.mem_cons] at hmem
      simp only [List.map_cons, List.nodup_cons] at hnd
      simp only [assocLookup]
      rcases hmem with h | h
      · subst h
        rw [if_pos rfl]
      · by_cases hk : p.1 = k
        · exfalso
          apply hnd.1
          rw [hk]
          exact List.mem_map_of_mem Prod.fst h
        · rw [if_neg hk]
          exact ih h hnd.2

theorem catCount_eq_zero_of_uncovered (vs : List Vulnerability)
    (cats : List (String × CategoryStats)) (cat : String)
    (hcov : ∀ v ∈ vs, (assocLookup cats v.category).isSome)
    (h : assocLookup cats cat = none) : catCount vs cat = 0 ∧ catWeight vs cat = 0 := by
  have hnone : ∀ v ∈ vs, v.category ≠ cat := by
    intro v hv he
    have := hcov v hv
    rw [he, h] at this
    simp at this
  constructor
  · simp only [catCount]
    rw [List.countP_eq_zero]
    intro v hv
    simpa using hnone v hv
  · simp only [catWeight]
    rw [List.filter_eq_nil_iff.mpr (by intro v hv; simpa using hnone v hv)]
    rfl

/-- The accounting invariant of the RiskScore state. -/
def ScoreInv (st : RiskScore) : Prop :=
  st.total_score = sumWeights st.vulnerabilities ∧
  st.total_score = sumCatScores st.risk_categories ∧
  (∀ cat stats, assocLookup st.risk_categories cat = some stats →
    stats.count = catCount st.vulnerabilities cat ∧
    stats.score = catWeight st.vulnerabilities cat) ∧
  (∀ v ∈ st.vulnerabilities, (assocLookup st.risk_categories v.category).isSome) ∧
  st.max_risk_level.value = maxValue st.vulnerabilities ∧
  (st.risk_categories.map Prod.fst).Nodup

theorem ScoreInv_init : ScoreInv RiskScore.init := by
  refine ⟨rfl, rfl, ?_, ?_, rfl, ?_⟩
  · intro cat stats h
    simp [RiskScore.init, assocLookup] at h
  · intro v hv
    simp [RiskScore.init] at hv
  · simp [RiskScore.init]

theorem natMax_left (a b : Nat) (h : b ≤ a) : Nat.max a b = a := by
  simp [Nat.max_def]
  omega

theorem natMax_right (a b : Nat) (h : a ≤ b) : Nat.max a b = b := by
  simp [Nat.max_def]
  intro h2
  omega

theorem assocSet_append_single_self {α : Type} (l : List (String × α)) (k : String) (v v2 : α)
    (h : assocLookup l k = none) : assocSet (l ++ [(k, v)]) k v2 = l ++ [(k, v2)] := by
  induction l with
  | nil => simp [assocSet]
  | cons p rest ih =>
      simp only [assocLookup] at h
      by_cases hk : p.1 = k
      · rw [if_pos hk] at h; exact absurd h (by simp)
      · rw [if_neg hk] at h
        simp only [List.cons_append, assocSet]
        rw [if_neg hk]
        rw [show rest.append [(k, v)] = rest ++ [(k, v)] from rfl, ih h]

theorem add_vulnerability_risk_categories_some (st : RiskScore) (n d : String) (rl : RiskLevel)
    (cat : String) (loc rem : Option String) (s : CategoryStats)
    (hl : assocLookup st.risk_categories cat = some s) :
    (st.add_vulnerability n d rl cat loc rem).risk_categories =
      assocSet st.risk_categories cat
        ⟨s.count + 1, if rl.value > s.max_level.value then rl else s.max_level,
         s.score + _get_risk_weight rl⟩ := by
  simp only [RiskScore.add_vulnerability, hl, Option.isNone_some, Bool.false_eq_true,
    if_false, Option.getD_some]
  by_cases hgt : rl.value > s.max_level.value
  · rw [if_pos hgt, if_pos hgt]
  · rw [if_neg hgt, if_neg hgt]

theorem add_vulnerability_risk_categories_none (st : RiskScore) (n d : String) (rl : RiskLevel)
    (cat : String) (loc rem : Option String)
    (hl : assocLookup st.risk_categories cat = none) :
    (st.add_vulnerability n d rl cat loc rem).risk_categories =
      st.risk_categories ++
        [(cat, ⟨1, if rl.value > RiskLevel.NONE.value then rl else RiskLevel.NONE,
                _get_risk_weight rl⟩)] := by
  simp only [RiskScore.add_vulnerability, hl, Option.isNone_none, if_true,
    assocLookup_append_single_self st.risk_categories cat _ hl, Option.getD_some]
  rw [assocSet_append_single_self st.risk_categories cat _ _ hl]
  by_cases hgt : rl.value > RiskLevel.NONE.value
  · rw [if_pos hgt, if_pos hgt]
    simp
  · rw [if_neg hgt, if_neg hgt]
    simp

theorem ScoreInv_add (st : RiskScore) (h : ScoreInv st) (n d : String) (rl : RiskLevel)
    (cat : String) (loc rem : Option String) :
    ScoreInv (st.add_vulnerability n d rl cat loc rem) := by
  obtain ⟨hA, hB, hC, hD, hE, hF⟩ := h
  set w := _get_risk_weight rl with hw
  set v : Vulnerability := ⟨n, d, rl, RiskLevel.to_string rl, cat, loc, rem⟩ with hv
  have hvulns := add_vulnerability_vulnerabilities st n d rl cat loc rem
  have htot := add_vulnerability_total_score st n d rl cat loc rem
  have hmax := add_vulnerability_max_risk_level st n d rl cat loc rem
  cases hl : assocLookup st.risk_categories cat with
  | none =>
      have hcats := add_vulnerability_risk_categories_none st n d rl cat loc rem hl
      have hzero := catCount_eq_zero_of_uncovered st.vulnerabilities st.risk_categories cat hD hl
      refine ⟨?_, ?_, ?_, ?_, ?_, ?_⟩
      · rw [htot, hvulns, sumWeights_append, hA]
      · rw [htot, hcats]
        simp only [sumCatScores, List.map_append, List.sum_append, List.map_cons,
          List.map_nil, List.sum_cons, List.sum_nil]
        rw [hB]
        simp [sumCatScores]
      · intro cat2 stats2 h2
        rw [hcats] at h2
        by_cases hc : cat2 = cat
        · subst hc
          rw [assocLookup_append_single_self st.risk_categories cat2 _ hl] at h2
          injection h2 with h2
          subst h2
          rw [hvulns, catCount_append, catWeight_append]
          refine ⟨?_, ?_⟩
          · simp [hv, hzero.1]
          · simp [hv, hzero.2]
        · rw [assocLookup_append_single_ne st.risk_categories cat cat2 _ hc] at h2
          rw [hvulns, catCount_append, catWeight_append]
          have hne : v.category ≠ cat2 := fun he => hc (by rw [← he])
          rw [if_neg hne, if_neg hne]
          refine ⟨?_, ?_⟩
          · rw [(hC cat2 stats2 h2).1]
            omega
          · rw [(hC cat2 stats2 h2).2]
            omega
      · intro v2 hv2
        rw [hvulns] at hv2
        rw [hcats]
        rcases List.mem_append.mp hv2 with hmem | hmem
        · by_cases hc : v2.category = cat
          · rw [hc, assocLookup_append_single_self st.risk_categories cat _ hl]
            rfl
          · rw [assocLookup_append_single_ne st.risk_categories cat v2.category _ hc]
            exact hD v2 hmem
        · simp only [List.mem_singleton] at hmem
          subst hmem
          rw [assocLookup_append_single_self st.risk_categories cat _ hl]
          rfl
      · rw [hmax, hvulns, maxValue_append]
        by_cases hgt : rl.value > st.max_risk_level.value
        · rw [if_pos hgt]
          rw [hE] at hgt
          simp only [hv]
          exact (natMax_right _ _ (Nat.le_of_lt hgt)).symm
        · rw [if_neg hgt]
          rw [hE] at hgt
          simp only [hv]
          rw [natMax_left _ _ (by omega)]
          exact hE
      · rw [hcats]
        simp only [List.map_append, List.map_cons, List.map_nil]
        rw [List.nodup_append]
        refine ⟨hF, List.nodup_singleton cat, ?_⟩
        intro a ha hb
        simp only [List.mem_singleton] at hb
        subst hb
        have := assocLookup_isSome_of_mem_keys st.risk_categories a ha
        rw [hl] at this
        simp at this
  | some s =>
      have hcats := add_vulnerability_risk_categories_some st n d rl cat loc rem s hl
      set ns : CategoryStats :=
        ⟨s.count + 1, if rl.value > s.max_level.value then rl else s.max_level, s.score + w⟩
        with hns
      refine ⟨?_, ?_, ?_, ?_, ?_, ?_⟩
      · rw [htot, hvulns, sumWeights_append, hA]
      · rw [htot, hcats]
        have := sumCatScores_assocSet st.risk_categories cat s ns hl
        have hscore : ns.score = s.score + w := rfl
        omega
      · intro cat2 stats2 h2
        rw [hcats] at h2
        by_cases hc : cat2 = cat
        · subst hc
          rw [assocSet_lookup_self st.risk_categories cat2 s ns hl] at h2
          injection h2 with h2
          subst h2
          rw [hvulns, catCount_append, catWeight_append]
          refine ⟨?_, ?_⟩
          · simp only [hns]
            rw [(hC cat2 s hl).1]
            simp [hv]
          · simp only [hns]
            rw [(hC cat2 s hl).2]
            simp [hv, hw]
        · rw [assocSet_lookup_ne st.risk_categories cat cat2 ns hc] at h2
          rw [hvulns, catCount_append, catWeight_append]
          have hne : v.category ≠ cat2 := fun he => hc (by rw [← he])
          rw [if_neg hne, if_neg hne]
          refine ⟨?_, ?_⟩
          · rw [(hC cat2 stats2 h2).1]
            omega
          · rw [(hC cat2 stats2 h2).2]
            omega
      · intro v2 hv2
        rw [hvulns] at hv2
        rw [hcats]
        rcases List.mem_append.mp hv2 with hmem | hmem
        · by_cases hc : v2.category = cat
          · rw [hc, assocSet_lookup_self st.risk_categories cat s ns hl]
            rfl
          · rw [assocSet_lookup_ne st.risk_categories cat v2.category ns hc]
            exact hD v2 hmem
        · simp only [List.mem_singleton] at hmem
          subst hmem
          rw [assocSet_lookup_self st.risk_categories cat s ns hl]
          rfl
      · rw [hmax, hvulns, maxValue_append]
        by_cases hgt : rl.value > st.max_risk_level.value
        · rw [if_pos hgt]
          rw [hE] at hgt
          simp only [hv]
          exact (natMax_right _ _ (Nat.le_of_lt hgt)).symm
        · rw [if_neg hgt]
          rw [hE] at hgt
          simp only [hv]
          rw [natMax_left _ _ (by omega)]
          exact hE
      · rw [hcats, assocSet_keys]
        exact hF

theorem ScoreInv_runAdds (calls : List AddCall) : ScoreInv (runAdds calls) := by
  have main : ∀ (cs : List AddCall) (st : RiskScore), ScoreInv st →
      ScoreInv (cs.foldl (fun st c => st.add_vulnerability c.name c.description c.risk_level
        c.category c.location c.remediation) st) := by
    intro cs
    induction cs with
    | nil => intro st h; exact h
    | cons c rest ih =>
        intro st h
        exact ih _ (ScoreInv_add st h c.name c.description c.risk_level c.category
          c.location c.remediation)
  exact main calls RiskScore.init ScoreInv_init

/-- C9: after any sequence of add_vulnerability calls starting from a fresh
RiskScore, total_score equals the sum of the weights of all recorded
vulnerabilities and the sum of all per-category score fields; each recorded
category entry's count and score equal the number and summed weight of the
vulnerabilities in that category; and max_risk_level is the maximum recorded
risk level (value 0, i.e. None, when nothing was added). -/
theorem C9_accounting_invariant (calls : List AddCall) :
    (runAdds calls).total_score = sumWeights (runAdds calls).vulnerabilities ∧
    (runAdds calls).total_score = sumCatScores (runAdds calls).risk_categories ∧
    (∀ cat stats, (cat, stats) ∈ (runAdds calls).risk_categories →
      stats.count = catCount (runAdds calls).vulnerabilities cat ∧
      stats.score = catWeight (runAdds calls).vulnerabilities cat) ∧
    (∀ v ∈ (runAdds calls).vulnerabilities,
      (assocLookup (runAdds calls).risk_categories v.category).isSome) ∧
    (runAdds calls).max_risk_level.value = maxValue (runAdds calls).vulnerabilities := by
  obtain ⟨hA, hB, hC, hD, hE, hF⟩ := ScoreInv_runAdds calls
  refine ⟨hA, hB, ?_, hD, hE⟩
  intro cat stats hmem
  exact hC cat stats (assocLookup_of_mem_nodup _ cat stats hmem hF)

/-- C9 witness: the invariant applied to a concrete two-call sequence in the
same category, discharging the membership hypothesis of the per-category
conjunct at the resulting "Security" entry. -/
theorem C9_accounting_invariant_witness :
    (2 : Nat) = catCount (runAdds [⟨"a", "x", RiskLevel.LOW, "Security", none, none⟩,
        ⟨"b", "y", RiskLevel.HIGH, "Security", none, none⟩]).vulnerabilities "Security" ∧
    (8 : Nat) = catWeight (runAdds [⟨"a", "x", RiskLevel.LOW, "Security", none, none⟩,
        ⟨"b", "y", RiskLevel.HIGH, "Security", none, none⟩]).vulnerabilities "Security" :=
  (C9_accounting_invariant [⟨"a", "x", RiskLevel.LOW, "Security", none, none⟩,
      ⟨"b", "y", RiskLevel.HIGH, "Security", none, none⟩]).2.2.1 "Security"
    ⟨2, RiskLevel.HIGH, 8⟩ (by decide)

/-! ## Claim C8: train_model.extract_vulnerability_patterns (code_patterns part)
— train_model.py lines 72-105 -/

/-- One element dict of a finding in a detection report. -/
structure TrainElement where
  type : Option String
  name : Option String
deriving DecidableEq

/-- One finding dict of a detection report (the fields read by training). -/
structure TrainFinding where
  check : Option String
  elements : List TrainElement
deriving DecidableEq

/-- One historical detection report (the fields read by training). -/
structure DetectionReport where
  slither_findings : List TrainFinding
  custom_findings : List TrainFinding
deriving DecidableEq

/-- The two nested "not in" guards that add a code line to
patterns[code_patterns][vuln_type]. -/
def addCodePattern (ps : List (String × List String)) (t cl : String) :
    List (String × List String) :=
  match assocLookup ps t with
  | none => ps ++ [(t, [cl])]
  | some ls => if cl ∈ ls then ps else assocSet ps t (ls ++ [cl])

/-- Processing of one element: only elements of type "line" whose stripped
name is non-empty and longer than 5 characters contribute. -/
def processElement (t : String) (ps : List (String × List String)) (el : TrainElement) :
    List (String × List String) :=
  if el.type = some "line" then
    let code_line := pyStrip (el.name.getD "")
    if code_line ≠ "" ∧ code_line.length > 5 then addCodePattern ps t code_line else ps
  else ps

/-- Processing of one finding: vuln_type := finding.get('check', 'unknown'),
then every element is scanned. -/
def processFinding (ps : List (String × List String)) (f : TrainFinding) :
    List (String × List String) :=
  f.elements.foldl (processElement (f.check.getD "unknown")) ps

/-- Processing of one report: first the Slither findings, then the custom
rule findings, with identical logic. -/
def processReport (ps : List (String × List String)) (r : DetectionReport) :
    List (String × List String) :=
  r.custom_findings.foldl processFinding (r.slither_findings.foldl processFinding ps)

/-- The code_patterns table built by extract_vulnerability_patterns over a
list of historical detection reports (starting from the empty dict). -/
def extract_code_patterns (reports : List DetectionReport) : List (String × List String) :=
  reports.foldl processReport []

/-- Membership of a code line in the exemplar list of a check type. -/
def memPattern (cl t : String) (ps : List (String × List String)) : Prop :=
  cl ∈ (assocLookup ps t).getD []

/-- All stored exemplar lists are duplicate-free. -/
def AllNodup (ps : List (String × List String)) : Prop :=
  ∀ t ls, assocLookup ps t = some ls → ls.Nodup

theorem memPattern_addCodePattern (ps : List (String × List String)) (t2 cl2 t cl : String)
    (h : memPattern cl t ps) : memPattern cl t (addCodePattern ps t2 cl2) := by
  unfold memPattern at h ⊢
  unfold addCodePattern
  cases hl : assocLookup ps t2 with
  | none =>
      dsimp only
      by_cases ht : t = t2
      · subst ht
        rw [hl] at h
        simp at h
      · rw [assocLookup_append_single_ne ps t2 t _ ht]
        exact h
  | some ls =>
      dsimp only
      by_cases hc : cl2 ∈ ls
      · rw [if_pos hc]
        exact h
      · rw [if_neg hc]
        by_cases ht : t = t2
        · subst ht
          rw [assocSet_lookup_self ps t ls _ hl]
          rw [hl] at h
          simp only [Option.getD_some] at h ⊢
          exact List.mem_append_left _ h
        · rw [assocSet_lookup_ne ps t2 t _ ht]
          exact h

theorem memPattern_addCodePattern_self (ps : List (String × List String)) (t cl : String) :
    memPattern cl t (addCodePattern ps t cl) := by
  unfold memPattern addCodePattern
  cases hl : assocLookup ps t with
  | none =>
      dsimp only
      rw [assocLookup_append_single_self ps t _ hl]
      simp
  | some ls =>
      dsimp only
      by_cases hc : cl ∈ ls
      · rw [if_pos hc, hl]
        simpa using hc
      · rw [if_neg hc, assocSet_lookup_self ps t ls _ hl]
        simp

theorem memPattern_processElement (t2 t cl : String) (ps : List (String × List String))
    (el : TrainElement) (h : memPattern cl t ps) :
    memPattern cl t (processElement t2 ps el) := by
  unfold processElement
  dsimp only
  split_ifs with h1 h2
  · exact memPattern_addCodePattern ps t2 _ t cl h
  · exact h
  · exact h

theorem memPattern_foldElements (t2 t cl : String) (els : List TrainElement)
    (ps : List (String × List String)) (h : memPattern cl t ps) :
    memPattern cl t (els.foldl (processElement t2) ps) := by
  induction els generalizing ps with
  | nil => exact h
  | cons e es ih => exact ih _ (memPattern_processElement t2 t cl ps e h)

theorem memPattern_processFinding (t cl : String) (ps : List (String × List String))
    (f : TrainFinding) (h : memPattern cl t ps) :
    memPattern cl t (processFinding ps f) :=
  memPattern_foldElements _ t cl f.elements ps h

theorem memPattern_foldFindings (t cl : String) (fs : List TrainFinding)
    (ps : List (String × List String)) (h : memPattern cl t ps) :
    memPattern cl t (fs.foldl processFinding ps) := by
  induction fs generalizing ps with
  | nil => exact h
  | cons f rest ih => exact ih _ (memPattern_processFinding t cl ps f h)

theorem memPattern_processReport (t cl : String) (ps : List (String × List String))
    (r : DetectionReport) (h : memPattern cl t ps) :
    memPattern cl t (processReport ps r) :=
  memPattern_foldFindings t cl _ _ (memPattern_foldFindings t cl _ _ h)

theorem memPattern_foldReports (t cl : String) (rs : List DetectionReport)
    (ps : List (String × List String)) (h : memPattern cl t ps) :
    memPattern cl t (rs.foldl processReport ps) := by
  induction rs generalizing ps with
  | nil => exact h
  | cons r rest ih => exact ih _ (memPattern_processReport t cl ps r h)

/-- Whether an element qualifies for pattern extraction under the source's
guards. -/
def elemQualifies (el : TrainElement) : Prop :=
  el.type = some "line" ∧ pyStrip (el.name.getD "") ≠ "" ∧
    (pyStrip (el.name.getD "")).length > 5

theorem memPattern_hitElements (t : String) (els : List TrainElement)
    (ps : List (String × List String)) (el : TrainElement) (hmem : el ∈ els)
    (hq : elemQualifies el) :
    memPattern (pyStrip (el.name.getD "")) t (els.foldl (processElement t) ps) := by
  induction els generalizing ps with
  | nil => simp at hmem
  | cons e es ih =>
      rcases List.mem_cons.mp hmem with he | he
      · subst he
        rw [List.foldl_cons]
        apply memPattern_foldElements
        unfold processElement
        dsimp only
        rw [if_pos hq.1, if_pos ⟨hq.2.1, hq.2.2⟩]
        exact memPattern_addCodePattern_self ps t _
      · rw [List.foldl_cons]
        exact ih _ he

theorem memPattern_hitFindings (fs : List TrainFinding) (ps : List (String × List String))
    (f : TrainFinding) (el : TrainElement) (hf : f ∈ fs) (hel : el ∈ f.elements)
    (hq : elemQualifies el) :
    memPattern (pyStrip (el.name.getD "")) (f.check.getD "unknown")
      (fs.foldl processFinding ps) := by
  induction fs generalizing ps with
  | nil => simp at hf
  | cons g gs ih =>
      rcases List.mem_cons.mp hf with hg | hg
      · subst hg
        rw [List.foldl_cons]
        apply memPattern_foldFindings
        exact memPattern_hitElements _ f.elements ps el hel hq
      · rw [List.foldl_cons]
        exact ih _ hg

theorem memPattern_hitReports (rs : List DetectionReport) (ps : List (String × List String))
    (r : DetectionReport) (f : TrainFinding) (el : TrainElement) (hr : r ∈ rs)
    (hf : f ∈ r.slither_findings ++ r.custom_findings) (hel : el ∈ f.elements)
    (hq : elemQualifies el) :
    memPattern (pyStrip (el.name.getD "")) (f.check.getD "unknown")
      (rs.foldl processReport ps) := by
  induction rs generalizing ps with
  | nil => simp at hr
  | cons q qs ih =>
      rcases List.mem_cons.mp hr with hg | hg
      · subst hg
        rw [List.foldl_cons]
        apply memPattern_foldReports
        unfold processReport
        rcases List.mem_append.mp hf with hs | hs
        · apply memPattern_foldFindings
          exact memPattern_hitFindings _ ps f el hs hel hq
        · exact memPattern_hitFindings _ _ f el hs hel hq
      · rw [List.foldl_cons]
        exact ih _ hg

theorem AllNodup_addCodePattern (ps : List (String × List String)) (t cl : String)
    (h : AllNodup ps) : AllNodup (addCodePattern ps t cl) := by
  unfold AllNodup at h ⊢
  intro t2 ls2
  unfold addCodePattern
  cases hl : assocLookup ps t with
  | none =>
      dsimp only
      by_cases ht : t2 = t
      · subst ht
        rw [assocLookup_append_single_self ps t2 _ hl]
        intro he
        injection he with he
        subst he
        exact List.nodup_singleton cl
      · rw [assocLookup_append_single_ne ps t t2 _ ht]
        exact h t2 ls2
  | some ls =>
      dsimp only
      by_cases hc : cl ∈ ls
      · rw [if_pos hc]
        exact h t2 ls2
      · rw [if_neg hc]
        by_cases ht : t2 = t
        · subst ht
          rw [assocSet_lookup_self ps t2 ls _ hl]
          intro he
          injection he with he
          subst he
          rw [List.nodup_append]
          exact ⟨h t2 ls hl, List.nodup_singleton cl, by
            intro a ha hb
            simp only [List.mem_singleton] at hb
            subst hb
            exact hc ha⟩
        · rw [assocSet_lookup_ne ps t t2 _ ht]
          exact h t2 ls2

theorem AllNodup_processElement (t : String) (ps : List (String × List String))
    (el : TrainElement) (h : AllNodup ps) : AllNodup (processElement t ps el) := by
  unfold processElement
  dsimp only
  split_ifs with h1 h2
  · exact AllNodup_addCodePattern ps t _ h
  · exact h
  · exact h

theorem AllNodup_foldElements (t : String) (els : List TrainElement)
    (ps : List (String × List String)) (h : AllNodup ps) :
    AllNodup (els.foldl (processElement t) ps) := by
  induction els generalizing ps with
  | nil => exact h
  | cons e es ih => exact ih _ (AllNodup_processElement t ps e h)

theorem AllNodup_foldFindings (fs : List TrainFinding) (ps : List (String × List String))
    (h : AllNodup ps) : AllNodup (fs.foldl processFinding ps) := by
  induction fs generalizing ps with
  | nil => exact h
  | cons f rest ih => exact ih _ (AllNodup_foldElements _ f.elements ps h)

theorem AllNodup_foldReports (rs : List DetectionReport) (ps : List (String × List String))
    (h : AllNodup ps) : AllNodup (rs.foldl processReport ps) := by
  induction rs generalizing ps with
  | nil => exact h
  | cons r rest ih =>
      exact ih _ (AllNodup_foldFindings _ _ (AllNodup_foldFindings _ _ h))

/-- C8 counterexample report: a single custom-rule finding under check "X"
whose only line-typed element has the stripped, not-yet-seen text "a=b;"
(4 characters). -/
def c8report : DetectionReport :=
  { slither_findings := [],
    custom_findings := [{ check := some "X",
                          elements := [{ type := some "line", name := some "a=b;" }] }] }

/-- C8 counterexample: the claim says every not-yet-seen line-typed element's
stripped text is appended under its check type; the concrete element text
"a=b;" is line-typed, non-empty, stripped to itself and unseen, yet the
training pass appends nothing because of the length-greater-than-5 guard. -/
theorem C8_append_counterexample :
    pyStrip "a=b;" = "a=b;" ∧
    ¬ memPattern "a=b;" "X" (extract_code_patterns [c8report]) ∧
    extract_code_patterns [c8report] = [] := by
  refine ⟨by decide, ?_, by decide⟩
  intro h
  rw [show extract_code_patterns [c8report] = [] from by decide] at h
  simp [memPattern, assocLookup] at h

/-- C8 (amended): the training pass appends every not-yet-seen finding code
line that is line-typed and whose stripped text is non-empty and longer than
5 characters, under its check type, and each exemplar list contains each code
line at most once. -/
theorem C8_append_dedup (reports : List DetectionReport) :
    (∀ r ∈ reports, ∀ f ∈ r.slither_findings ++ r.custom_findings, ∀ el ∈ f.elements,
      elemQualifies el →
      memPattern (pyStrip (el.name.getD "")) (f.check.getD "unknown")
        (extract_code_patterns reports)) ∧
    AllNodup (extract_code_patterns reports) := by
  constructor
  · intro r hr f hf el hel hq
    exact memPattern_hitReports reports [] r f el hr hf hel hq
  · apply AllNodup_foldReports
    intro t ls h
    simp [assocLookup] at h

/-- C8 witness element: a line-typed element whose stripped text is longer
than 5 characters. -/
def c8elem : TrainElement :=
  { type := some "line", name := some " balances[msg.sender] = 0; " }

/-- C8 witness finding holding the witness element under check type
"reentrancy-eth". -/
def c8finding : TrainFinding :=
  { check := some "reentrancy-eth", elements := [c8elem] }

/-- C8 witness report. -/
def c8demo : DetectionReport :=
  { slither_findings := [c8finding], custom_findings := [] }

/-- C8 witness: the amended theorem applied to the concrete report whose line
element "balances[msg.sender] = 0;" lands in the model under its check type. -/
theorem C8_append_dedup_witness :
    memPattern "balances[msg.sender] = 0;" "reentrancy-eth"
      (extract_code_patterns [c8demo]) := by
  have h := (C8_append_dedup [c8demo]).1 c8demo (by decide) c8finding (by decide)
    c8elem (by decide) ⟨rfl, by decide, by decide⟩
  exact h

/-! ## Regular-expression engine

A small backtracking matcher mirroring CPython re semantics for the pattern
features used in the sources: leftmost match, ordered alternation, greedy and
lazy quantifiers, capturing groups, lookahead, word boundary and end anchor.
Recursion is bounded by an explicit fuel that strictly exceeds the depth of
any backtracking path for the concrete patterns and inputs evaluated here. -/

/-- Python regex word character (ASCII range). -/
def wordChar (c : Char) : Bool :=
  c.isAlpha || c.isDigit || c = '_'

/-- Regular-expression abstract syntax. -/
inductive RE
  | eps
  | lit (c : Char)
  | cls (p : Char → Bool)
  | seq (a b : RE)
  | alt (a b : RE)
  | star (r : RE) (greedy : Bool)
  | group (n : Nat) (r : RE)
  | look (neg : Bool) (r : RE)
  | bound
  | endStr

/-- One-or-more, desugared as in CPython to r then r*. -/
def RE.plus (r : RE) (greedy : Bool) : RE :=
  RE.seq r (RE.star r greedy)

/-- Zero-or-one. -/
def RE.opt (r : RE) (greedy : Bool) : RE :=
  if greedy then RE.alt r RE.eps else RE.alt RE.eps r

/-- Sequence of a list of patterns. -/
def reSeq (rs : List RE) : RE :=
  rs.foldr RE.seq RE.eps

/-- Structural size of a pattern, used only to pick a sufficient fuel. -/
def RE.size : RE → Nat
  | .eps => 1
  | .lit _ => 1
  | .cls _ => 1
  | .seq a b => a.size + b.size + 1
  | .alt a b => a.size + b.size + 1
  | .star r _ => r.size + 1
  | .group _ r => r.size + 1
  | .look _ r => r.size + 1
  | .bound => 1
  | .endStr => 1

/-- The backtracking matcher in continuation-passing style.  full is the
subject, ci enables case-insensitive literal comparison, i the current
position, gs the captured group spans (group, start, end; most recent first),
and k the continuation.  Star iterations require progress (j > i), matching
CPython's refusal to repeat a zero-width match. -/
def reRun (full : List Char) (ci : Bool) :
    Nat → RE → Nat → List (Nat × Nat × Nat) →
    (Nat → List (Nat × Nat × Nat) → Option (Nat × List (Nat × Nat × Nat))) →
    Option (Nat × List (Nat × Nat × Nat))
  | 0, _, _, _, _ => none
  | Nat.succ fuel, re, i, gs, k =>
    match re with
    | .eps => k i gs
    | .lit c =>
        match full.get? i with
        | some c2 =>
            if (if ci then c.toLower = c2.toLower else c = c2) then k (i + 1) gs else none
        | none => none
    | .cls p =>
        match full.get? i with
        | some c2 => if p c2 then k (i + 1) gs else none
        | none => none
    | .seq a b =>
        reRun full ci fuel a i gs (fun j g2 => reRun full ci fuel b j g2 k)
    | .alt a b =>
        match reRun full ci fuel a i gs k with
        | some res => some res
        | none => reRun full ci fuel b i gs k
    | .star r greedy =>
        if greedy then
          match reRun full ci fuel r i gs
              (fun j g2 =>
                if j > i then reRun full ci fuel (RE.star r greedy) j g2 k else none) with
          | some res => some res
          | none => k i gs
        else
          match k i gs with
          | some res => some res
          | none =>
              reRun full ci fuel r i gs
                (fun j g2 =>
                  if j > i then reRun full ci fuel (RE.star r greedy) j g2 k else none)
    | .group n r =>
        reRun full ci fuel r i gs (fun j g2 => k j ((n, i, j) :: g2))
    | .look neg r =>
        match reRun full ci fuel r i gs (fun j g2 => some (j, g2)) with
        | some (_, g2) => if neg then none else k i g2
        | none => if neg then k i gs else none
    | .bound =>
        let wAt := fun (j : Nat) =>
          match full.get? j with
          | some c => wordChar c
          | none => false
        let before := if i = 0 then false else wAt (i - 1)
        if before ≠ wAt i then k i gs else none
    | .endStr => if i = full.length then k i gs else none

/-- Fuel amply covering the recursion depth of any match attempt. -/
def reFuel (re : RE) (s : List Char) : Nat :=
  (re.size + 2) * (s.length + 2) * 4 + 16

/-- Anchored match attempt at position i. -/
def reMatchAt (re : RE) (ci : Bool) (s : List Char) (i : Nat) :
    Option (Nat × List (Nat × Nat × Nat)) :=
  reRun s ci (reFuel re s) re i [] (fun j gs => some (j, gs))

/-- re.search scanning from position start: leftmost successful start wins.
Returns (start, end, groups). -/
def reSearchFrom (re : RE) (ci : Bool) (s : List Char) (start : Nat) :
    Option (Nat × Nat × List (Nat × Nat × Nat)) :=
  (List.range (s.length + 1 - start)).findSome? (fun d =>
    match reMatchAt re ci s (start + d) with
    | some (j, gs) => some (start + d, j, gs)
    | none => none)

/-- re.search from the beginning of the subject. -/
def reSearch (re : RE) (ci : Bool) (s : List Char) :
    Option (Nat × Nat × List (Nat × Nat × Nat)) :=
  reSearchFrom re ci s 0

/-- re.finditer: repeated leftmost search, non-overlapping; a zero-width
match advances by one position. -/
def reFindIter (re : RE) (ci : Bool) (s : List Char) :
    List (Nat × Nat × List (Nat × Nat × Nat)) :=
  let rec go : Nat → Nat → List (Nat × Nat × List (Nat × Nat × Nat))
    | 0, _ => []
    | Nat.succ fuel, p =>
        if p > s.length then []
        else
          match reSearchFrom re ci s p with
          | none => []
          | some (i, j, gs) => (i, j, gs) :: go fuel (if j = i then j + 1 else j)
  go (s.length + 2) 0

/-- Span of a numbered capture group (most recent write wins). -/
def groupSpan (gs : List (Nat × Nat × Nat)) (n : Nat) : Option (Nat × Nat) :=
  match gs.find? (fun t => t.1 = n) with
  | some (_, a, b) => some (a, b)
  | none => none

/-- Characters [a, b) of the subject as a string (match.group text). -/
def sliceChars (s : List Char) (a b : Nat) : String :=
  ((s.drop a).take (b - a)).asString

/-! ## Pattern-string parser

Translates the regex literals that the sources pass around as data (custom
rule patterns, generated model patterns) into the RE syntax above.  Supports
the constructs those patterns use: literals, escapes, character classes with
ranges and class escapes, capturing and non-capturing groups, lookahead,
alternation, the quantifiers * + ? with optional lazy marker, dot, word
boundary, end anchor, and a leading (?i) flag. -/

/-- One item of a bracket character class. -/
inductive ClsItem
  | ch (c : Char)
  | range (a b : Char)
  | wordC
  | spaceC
  | notSpaceC
  | digitC

/-- Does a character satisfy one class item? -/
def clsItemMatch (c : Char) : ClsItem → Bool
  | .ch c2 => c = c2
  | .range a b => a ≤ c && c ≤ b
  | .wordC => wordChar c
  | .spaceC => pyWs c
  | .notSpaceC => !pyWs c
  | .digitC => c.isDigit

/-- Build the predicate of a bracket class. -/
def clsPred (neg : Bool) (items : List ClsItem) (c : Char) : Bool :=
  let m := items.any (clsItemMatch c)
  if neg then !m else m

/-- Parse the body of a bracket class up to the closing bracket. -/
def parseClsItems : Nat → List Char → List ClsItem → Option (List ClsItem × List Char)
  | 0, _, _ => none
  | Nat.succ _, [], _ => none
  | Nat.succ fuel, c :: cs, acc =>
    match c, cs with
    | ']', rest => some (acc.reverse, rest)
    | '\\', 'w' :: rest => parseClsItems fuel rest (ClsItem.wordC :: acc)
    | '\\', 's' :: rest => parseClsItems fuel rest (ClsItem.spaceC :: acc)
    | '\\', 'S' :: rest => parseClsItems fuel rest (ClsItem.notSpaceC :: acc)
    | '\\', 'd' :: rest => parseClsItems fuel rest (ClsItem.digitC :: acc)
    | '\\', 'n' :: rest => parseClsItems fuel rest (ClsItem.ch '\n' :: acc)
    | '\\', 't' :: rest => parseClsItems fuel rest (ClsItem.ch '\t' :: acc)
    | '\\', 'r' :: rest => parseClsItems fuel rest (ClsItem.ch '\r' :: acc)
    | '\\', e :: rest => parseClsItems fuel rest (ClsItem.ch e :: acc)
    | '\\', [] => none
    | a, '-' :: b :: rest =>
        if b = ']' then parseClsItems fuel ('-' :: b :: rest) (ClsItem.ch a :: acc)
        else parseClsItems fuel rest (ClsItem.range a b :: acc)
    | a, rest => parseClsItems fuel rest (ClsItem.ch a :: acc)

/-- Apply a trailing quantifier (* + ? with optional lazy marker) to an atom. -/
def applyQuant (r : RE) : List Char → RE × List Char
  | '*' :: '?' :: rest => (RE.star r false, rest)
  | '*' :: rest => (RE.star r true, rest)
  | '+' :: '?' :: rest => (RE.plus r false, rest)
  | '+' :: rest => (RE.plus r true, rest)
  | '?' :: '?' :: rest => (RE.opt r false, rest)
  | '?' :: rest => (RE.opt r true, rest)
  | rest => (r, rest)

/-- Parser mode: alternation, sequence, or single atom. -/
inductive PMode
  | modeAlt
  | modeSeq
  | modeAtom

/-- Recursive-descent parser over the pattern characters; structurally
recursive on fuel so that it evaluates inside the kernel.  gn is the number
of capturing groups opened so far. -/
def parseR : Nat → PMode → List Char → Nat → Option (RE × List Char × Nat)
  | 0, _, _, _ => none
  | Nat.succ fuel, PMode.modeAlt, cs, gn =>
    (match parseR fuel PMode.modeSeq cs gn with
     | none => none
     | some (r, rest, gn2) =>
       match rest with
       | '|' :: rest2 =>
           (match parseR fuel PMode.modeAlt rest2 gn2 with
            | some (r2, rest3, gn3) => some (RE.alt r r2, rest3, gn3)
            | none => none)
       | _ => some (r, rest, gn2))
  | Nat.succ fuel, PMode.modeSeq, cs, gn =>
    (match cs with
     | [] => some (RE.eps, [], gn)
     | ')' :: _ => some (RE.eps, cs, gn)
     | '|' :: _ => some (RE.eps, cs, gn)
     | _ =>
       match parseR fuel PMode.modeAtom cs gn with
       | none => none
       | some (r, rest, gn2) =>
         match applyQuant r rest with
         | (r2, rest2) =>
           match parseR fuel PMode.modeSeq rest2 gn2 with
           | some (rtail, rest3, gn3) => some (RE.seq r2 rtail, rest3, gn3)
           | none => none)
  | Nat.succ fuel, PMode.modeAtom, cs, gn =>
    (match cs with
     | [] => none
     | '(' :: '?' :: ':' :: rest =>
         (match parseR fuel PMode.modeAlt rest gn with
          | some (r, ')' :: rest2, gn2) => some (r, rest2, gn2)
          | _ => none)
     | '(' :: '?' :: '=' :: rest =>
         (match parseR fuel PMode.modeAlt rest gn with
          | some (r, ')' :: rest2, gn2) => some (RE.look false r, rest2, gn2)
          | _ => none)
     | '(' :: '?' :: '!' :: rest =>
         (match parseR fuel PMode.modeAlt rest gn with
          | some (r, ')' :: rest2, gn2) => some (RE.look true r, rest2, gn2)
          | _ => none)
     | '(' :: rest =>
         (match parseR fuel PMode.modeAlt rest (gn + 1) with
          | some (r, ')' :: rest2, gn2) => some (RE.group (gn + 1) r, rest2, gn2)
          | _ => none)
     | '[' :: '^' :: rest =>
         (match parseClsItems (rest.length + 2) rest [] with
          | some (items, rest2) => some (RE.cls (clsPred true items), rest2, gn)
          | none => none)
     | '[' :: rest =>
         (match parseClsItems (rest.length + 2) rest [] with
          | some (items, rest2) => some (RE.cls (clsPred false items), rest2, gn)
          | none => none)
     | '.' :: rest => some (RE.cls (fun c => c ≠ '\n'), rest, gn)
     | '\\' :: 'w' :: rest => some (RE.cls wordChar, rest, gn)
     | '\\' :: 's' :: rest => some (RE.cls pyWs, rest, gn)
     | '\\' :: 'S' :: rest => some (RE.cls (fun c => !pyWs c), rest, gn)
     | '\\' :: 'd' :: rest => some (RE.cls Char.isDigit, rest, gn)
     | '\\' :: 'b' :: rest => some (RE.bound, rest, gn)
     | '\\' :: 'Z' :: rest => some (RE.endStr, rest, gn)
     | '\\' :: 'n' :: rest => some (RE.lit '\n', rest, gn)
     | '\\' :: 't' :: rest => some (RE.lit '\t', rest, gn)
     | '\\' :: 'r' :: rest => some (RE.lit '\r', rest, gn)
     | '\\' :: e :: rest => some (RE.lit e, rest, gn)
     | c :: rest => some (RE.lit c, rest, gn))


/-- Compile a pattern string; a leading (?i) sets the case-insensitive flag.
Also returns the number of capturing groups (Python match.groups() has that
many slots).  Returns none for a pattern outside the supported fragment. -/
def parsePatternG (pat : String) : Option (RE × Bool × Nat) :=
  let cs := pat.toList
  let (cs2, ci) :=
    match cs with
    | '(' :: '?' :: 'i' :: ')' :: rest => (rest, true)
    | _ => (cs, false)
  match parseR (cs2.length * 4 + 8) PMode.modeAlt cs2 0 with
  | some (r, [], gn) => some (r, ci, gn)
  | _ => none

/-- Compile a pattern string, dropping the group count. -/
def parsePattern (pat : String) : Option (RE × Bool) :=
  match parsePatternG pat with
  | some (r, ci, _) => some (r, ci)
  | none => none

/-- re.search with a pattern given as a string, as the sources call it.
A pattern outside the supported fragment yields no match (the sources only
use patterns inside the fragment). -/
def pyReSearch (pat line : String) (ci : Bool) : Option (Nat × Nat × List (Nat × Nat × Nat)) :=
  match parsePattern pat with
  | some (re, ciFlag) => reSearch re (ci || ciFlag) line.toList
  | none => none

/-! ## Custom rule engine — loophole_detection.py lines 19-44 and 126-152 -/

/-- One custom rule dict. -/
structure CustomRule where
  name : String
  pattern : String
  description : String
  severity : String
deriving DecidableEq

/-- The CUSTOM_RULES list. -/
def CUSTOM_RULES : List CustomRule :=
  [{ name := "Timestamp_Dependency",
     pattern := "block\\.timestamp",
     description := "Use of block.timestamp, can be manipulated by miners.",
     severity := "Medium" },
   { name := "TX_Origin_Usage",
     pattern := "tx\\.origin",
     description := "Use of tx.origin for authentication, vulnerable to phishing.",
     severity := "High" },
   { name := "Integer_Overflow_Underflow_Candidate_Basic",
     pattern := "\\w+\\s*(\\+\\+|--|\\+=|-=|\\*=|/=)\\s*\\w+",
     description := "Potential basic integer arithmetic operation, needs careful review for overflow/underflow. Slither is much better at this.",
     severity := "Low" },
   { name := "Low_Level_Call",
     pattern := "\\.(call|delegatecall|staticcall)\\s*\\(",
     description := "Use of low-level calls (.call, .delegatecall, .staticcall), requires careful handling of return values and gas.",
     severity := "Medium" }]

/-- source_mapping dict of a custom-rule finding element. -/
structure SourceMapping where
  start : Int
  length : Int
  lines : List Nat
  filename_relative : String
deriving DecidableEq

/-- One element of a custom-rule finding. -/
structure RuleElement where
  type : String
  name : String
  source_mapping : SourceMapping
deriving DecidableEq

/-- One custom-rule finding dict. -/
structure RuleFinding where
  check : String
  impact : String
  confidence : String
  description : String
  elements : List RuleElement
deriving DecidableEq

/-- apply_custom_rules, parametrised by the rule list it scans (the source
reads the global CUSTOM_RULES) and by the file's base name and content (the
source reads them from disk).  For every physical line (enumerated from 1)
every rule's pattern is searched case-insensitively; each match produces one
finding. -/
def apply_custom_rules (rules : List CustomRule) (filename content : String) :
    List RuleFinding :=
  ((pySplitlines content).enumFrom 1).flatMap (fun p =>
    rules.filterMap (fun rule =>
      if (pyReSearch rule.pattern p.2 true).isSome then
        some { check := rule.name,
               impact := rule.severity,
               confidence := "Medium",
               description := rule.description ++ " (Custom Rule Match)",
               elements := [{ type := "line",
                              name := pyStrip p.2,
                              source_mapping := { start := -1,
                                                  length := -1,
                                                  lines := [p.1],
                                                  filename_relative := filename } }] }
      else none))

/-- The TX_Origin_Usage rule of CUSTOM_RULES, as quoted by the claim. -/
def tx_origin_rule : CustomRule :=
  { name := "TX_Origin_Usage",
    pattern := "tx\\.origin",
    description := "Use of tx.origin for authentication, vulnerable to phishing.",
    severity := "High" }

/-! ## Claim C6 -/

/-- C6: applying the custom rule TX_Origin_Usage (pattern tx\.origin,
severity High) to the one-line source text "require(tx.origin == owner);"
produces exactly one finding from the custom-rule engine, with check id
"TX_Origin_Usage", severity (impact) "High", and a single location at
line 1 carrying the line content as snippet. -/
theorem C6_custom_rule_scenario :
    apply_custom_rules [tx_origin_rule] "contract.sol" "require(tx.origin == owner);" =
      [{ check := "TX_Origin_Usage",
         impact := "High",
         confidence := "Medium",
         description := "Use of tx.origin for authentication, vulnerable to phishing. (Custom Rule Match)",
         elements := [{ type := "line",
                        name := "require(tx.origin == owner);",
                        source_mapping := { start := -1,
                                            length := -1,
                                            lines := [1],
                                            filename_relative := "contract.sol" } }] }] := by
  decide

/-! ## Pattern-generalization engine — loophole_detection.py lines 299-322 -/

/-- The characters escaped by CPython re.escape (3.7 and later). -/
def reEscapeSpecial : List Char :=
  ['(', ')', '[', ']', Char.ofNat 123, Char.ofNat 125, '?', '*', '+', '-', '|',
   '^', '$', '\\', '.', '&', '~', Char.ofNat 35, ' ', '\t', '\n', '\r',
   Char.ofNat 11, Char.ofNat 12]

/-- re.escape: prefix every special character with a backslash. -/
def pyReEscape (s : String) : String :=
  (s.toList.flatMap (fun c => if c ∈ reEscapeSpecial then ['\\', c] else [c])).asString

/-- re.sub with the pattern given as a string and the replacement inserted
verbatim (none of the source's replacement strings use group references;
CPython 3.7+ would in fact reject the backslash-s escape in the replacement
string and the caller swallows the exception, so verbatim insertion is the
semantics under which the transform does the most it could ever do). -/
def reSubStr (pat repl s : String) : String :=
  match parsePattern pat with
  | none => s
  | some (re, ci) =>
      let cs := s.toList
      let rec go : Nat → Nat → List Char
        | 0, p => cs.drop p
        | Nat.succ fuel, p =>
            if p > cs.length then []
            else
              match reSearchFrom re ci cs p with
              | none => cs.drop p
              | some (i, j, _) =>
                  ((cs.drop p).take (i - p)) ++ repl.toList ++
                    (if j = i then
                      (match cs.get? j with
                       | some c => c :: go fuel (j + 1)
                       | none => [])
                     else go fuel j)
      (go (cs.length + 2) 0).asString

/-- The core_pattern computation of detect_external_loopholes: escape the
exemplar, replace whitespace runs by a backslash-s-plus wildcard, then
attempt to replace backslash-word ... fragments by generic wildcards. -/
def core_pattern (pattern : String) : String :=
  reSubStr "\\\\\\w+\\\\s+\\\\\\w+" "\\w+\\s+\\w+" (reSubStr "\\s+" "\\s+" (pyReEscape pattern))

/-- The per-line model test of detect_external_loopholes:
re.search(core_pattern, line, re.IGNORECASE). -/
def model_line_match (pattern line : String) : Bool :=
  (pyReSearch (core_pattern pattern) line true).isSome

/-! ## Claim C2 -/

/-- C2 counterexample: the claim says the pattern generalized from the
exemplar "x.call.value(amount)()" must match "y.call.value(total)()"; it does
not — the exemplar contains no whitespace, so neither substitution fires and
the generated pattern is the escaped literal of the exemplar itself. -/
theorem C2_generalization_counterexample :
    model_line_match "x.call.value(amount)()" "y.call.value(total)()" = false := by
  decide

/-- C2 (amended): for the whitespace-free exemplar "x.call.value(amount)()"
the generalization transform produces exactly the escaped literal pattern, so
the pattern matches the exemplar line itself (case-insensitively) but does
not match "y.call.value(total)()" (same shape, different identifiers), and
does not match the unrelated line "uint256 public totalSupply;". -/
theorem C2_generalization_literal_only :
    core_pattern "x.call.value(amount)()" = "x\\.call\\.value\\(amount\\)\\(\\)" ∧
    model_line_match "x.call.value(amount)()" "x.call.value(amount)()" = true ∧
    model_line_match "x.call.value(amount)()" "X.Call.Value(AMOUNT)()" = true ∧
    model_line_match "x.call.value(amount)()" "y.call.value(total)()" = false ∧
    model_line_match "x.call.value(amount)()" "uint256 public totalSupply;" = false := by
  refine ⟨by decide, by decide, by decide, by decide, by decide⟩

/-! ## JSON values and a json.loads acceptance parser -/

/-- JSON values; numbers keep their lexeme (no float arithmetic occurs in the
embedded code paths). -/
inductive Json
  | null
  | bool (b : Bool)
  | num (raw : String)
  | str (s : String)
  | arr (xs : List Json)
  | obj (fields : List (String × Json))

/-- JSON whitespace accepted between tokens by json.loads. -/
def jsonWsChar (c : Char) : Bool :=
  c = ' ' || c = '\t' || c = '\n' || c = '\r'

/-- Skip JSON whitespace. -/
def skipJWs (cs : List Char) : List Char :=
  cs.dropWhile jsonWsChar

/-- Hexadecimal digit test for the backslash-u escape. -/
def isHexDig (c : Char) : Bool :=
  c.isDigit || ('a' ≤ c && c ≤ 'f') || ('A' ≤ c && c ≤ 'F')

/-- Parse the remainder of a JSON string literal (after the opening quote). -/
def parseJStr : Nat → List Char → List Char → Option (String × List Char)
  | 0, _, _ => none
  | Nat.succ fuel, acc, cs =>
    match cs with
    | [] => none
    | '"' :: rest => some (acc.reverse.asString, rest)
    | '\\' :: e :: rest =>
        (match e with
         | '"' => parseJStr fuel ('"' :: acc) rest
         | '\\' => parseJStr fuel ('\\' :: acc) rest
         | '/' => parseJStr fuel ('/' :: acc) rest
         | 'b' => parseJStr fuel (Char.ofNat 8 :: acc) rest
         | 'f' => parseJStr fuel (Char.ofNat 12 :: acc) rest
         | 'n' => parseJStr fuel ('\n' :: acc) rest
         | 'r' => parseJStr fuel ('\r' :: acc) rest
         | 't' => parseJStr fuel ('\t' :: acc) rest
         | 'u' =>
             (match rest with
              | h1 :: h2 :: h3 :: h4 :: rest2 =>
                  if isHexDig h1 && isHexDig h2 && isHexDig h3 && isHexDig h4 then
                    let hv := fun (c : Char) =>
                      if c.isDigit then c.toNat - 48
                      else if 'a' ≤ c && c ≤ 'f' then c.toNat - 87
                      else c.toNat - 55
                    parseJStr fuel
                      (Char.ofNat (((hv h1 * 16 + hv h2) * 16 + hv h3) * 16 + hv h4) :: acc) rest2
                  else none
              | _ => none)
         | _ => none)
    | c :: rest => if c.toNat < 32 then none else parseJStr fuel (c :: acc) rest

/-- Parse a JSON number lexeme (strict json syntax). -/
def parseJNum (cs : List Char) : Option (String × List Char) :=
  let (sign, cs1) :=
    match cs with
    | '-' :: rest => (['-'], rest)
    | _ => ([], cs)
  let intPart : Option (List Char × List Char) :=
    match cs1 with
    | '0' :: rest => some (['0'], rest)
    | c :: rest =>
        if c.isDigit && c ≠ '0' then
          some (c :: rest.takeWhile Char.isDigit, rest.dropWhile Char.isDigit)
        else none
    | [] => none
  match intPart with
  | none => none
  | some (ip, cs2) =>
    let (fp, cs3) :=
      match cs2 with
      | '.' :: rest =>
          if (rest.takeWhile Char.isDigit) = [] then ([], cs2)
          else ('.' :: rest.takeWhile Char.isDigit, rest.dropWhile Char.isDigit)
      | _ => ([], cs2)
    let fracOk : Bool :=
      match cs2 with
      | '.' :: rest => !((rest.takeWhile Char.isDigit).isEmpty)
      | _ => true
    let (ep, cs4) :=
      match cs3 with
      | e :: rest =>
          if e = 'e' || e = 'E' then
            let (es, rest2) :=
              match rest with
              | '+' :: r2 => (['+'], r2)
              | '-' :: r2 => (['-'], r2)
              | _ => ([], rest)
            if (rest2.takeWhile Char.isDigit) = [] then ([], cs3)
            else (e :: (es ++ rest2.takeWhile Char.isDigit), rest2.dropWhile Char.isDigit)
          else ([], cs3)
      | [] => ([], cs3)
    let expOk : Bool :=
      match cs3 with
      | e :: rest =>
          if e = 'e' || e = 'E' then
            (match rest with
             | '+' :: r2 => !((r2.takeWhile Char.isDigit).isEmpty)
             | '-' :: r2 => !((r2.takeWhile Char.isDigit).isEmpty)
             | _ => !((rest.takeWhile Char.isDigit).isEmpty))
          else true
      | [] => true
    if fracOk && expOk then some ((sign ++ ip ++ fp ++ ep).asString, cs4) else none

mutual

/-- Parse one JSON value (json.loads grammar, including the NaN and Infinity
extensions CPython accepts). -/
def parseJValue : Nat → List Char → Option (Json × List Char)
  | 0, _ => none
  | Nat.succ fuel, cs0 =>
    let cs := skipJWs cs0
    match cs with
    | 't' :: 'r' :: 'u' :: 'e' :: rest => some (Json.bool true, rest)
    | 'f' :: 'a' :: 'l' :: 's' :: 'e' :: rest => some (Json.bool false, rest)
    | 'n' :: 'u' :: 'l' :: 'l' :: rest => some (Json.null, rest)
    | 'N' :: 'a' :: 'N' :: rest => some (Json.num "NaN", rest)
    | 'I' :: 'n' :: 'f' :: 'i' :: 'n' :: 'i' :: 't' :: 'y' :: rest =>
        some (Json.num "Infinity", rest)
    | '-' :: 'I' :: 'n' :: 'f' :: 'i' :: 'n' :: 'i' :: 't' :: 'y' :: rest =>
        some (Json.num "-Infinity", rest)
    | '"' :: rest =>
        (match parseJStr (rest.length + 2) [] rest with
         | some (s, rest2) => some (Json.str s, rest2)
         | none => none)
    | '[' :: rest =>
        (match skipJWs rest with
         | ']' :: rest2 => some (Json.arr [], rest2)
         | _ => parseJArrItems fuel rest [])
    | '{' :: rest =>
        (match skipJWs rest with
         | '}' :: rest2 => some (Json.obj [], rest2)
         | _ => parseJObjItems fuel rest [])
    | _ =>
        (match parseJNum cs with
         | some (n, rest) => some (Json.num n, rest)
         | none => none)

/-- Parse the comma-separated items of a non-empty JSON array. -/
def parseJArrItems : Nat → List Char → List Json → Option (Json × List Char)
  | 0, _, _ => none
  | Nat.succ fuel, cs, acc =>
    match parseJValue fuel cs with
    | none => none
    | some (v, rest) =>
      match skipJWs rest with
      | ',' :: rest2 => parseJArrItems fuel rest2 (v :: acc)
      | ']' :: rest2 => some (Json.arr (v :: acc).reverse, rest2)
      | _ => none

/-- Parse the comma-separated members of a non-empty JSON object. -/
def parseJObjItems : Nat → List Char → List (String × Json) → Option (Json × List Char)
  | 0, _, _ => none
  | Nat.succ fuel, cs, acc =>
    match skipJWs cs with
    | '"' :: rest =>
        (match parseJStr (rest.length + 2) [] rest with
         | none => none
         | some (k, rest2) =>
           match skipJWs rest2 with
           | ':' :: rest3 =>
               (match parseJValue fuel rest3 with
                | none => none
                | some (v, rest4) =>
                  match skipJWs rest4 with
                  | ',' :: rest5 => parseJObjItems fuel rest5 ((k, v) :: acc)
                  | '}' :: rest5 => some (Json.obj ((k, v) :: acc).reverse, rest5)
                  | _ => none)
           | _ => none)
    | _ => none

end

/-- json.loads: parse one value and require only whitespace to follow;
returns none exactly where json.loads raises JSONDecodeError. -/
def jsonLoads (s : String) : Option Json :=
  match parseJValue (s.length * 2 + 8) s.toList with
  | some (v, rest) => if skipJWs rest = [] then some v else none
  | none => none

/-- Python dict lookup on a parsed JSON object (last duplicate key wins, as
when json builds the dict). -/
def jGet (j : Json) (key : String) : Option Json :=
  match j with
  | .obj fields =>
      (match fields.reverse.find? (fun p => p.1 = key) with
       | some (_, v) => some v
       | none => none)
  | _ => none

/-- dict.get with default. -/
def jGetD (j : Json) (key : String) (d : Json) : Json :=
  (jGet j key).getD d

/-- View a JSON value as a list (callers iterate only over lists). -/
def jArr : Json → List Json
  | .arr xs => xs
  | _ => []

/-- View a JSON value as a string (callers apply str methods only to
strings). -/
def jStr : Json → String
  | .str s => s
  | _ => ""

/-! ## MythrilAnalyzer.parse_results — imp_tools_integration.py lines 79-139 -/

/-- One parsed Mythril issue.  The structured path fills every field; the
textual fallback path builds a smaller dict, modelled by none in the
fallback-absent fields.  Fallback line numbers are Python ints, embedded as
numeric JSON values. -/
structure MythIssue where
  title : Json
  description : Json
  severity : String
  line_numbers : List Json
  code_snippet : Option String
  swc_id : Option Json
  confidence : Option Json

/-- The dict returned by MythrilAnalyzer.parse_results; absent keys are
none. -/
structure MythResult where
  tool : String
  issues : List MythIssue
  raw_output : Option String
  error_parsing : Option String
  success : Option Bool

/-- The per-issue extraction of the structured-parse path. -/
def parseMythIssue (issue : Json) : MythIssue :=
  let sourceMap := jArr (jGetD issue "sourceMap" (Json.arr []))
  { title := jGetD issue "title" (Json.str "Unknown Issue"),
    description := jGetD issue "description" (Json.str ""),
    severity := pyCapitalize (jStr (jGetD issue "severity" (Json.str "Unknown"))),
    line_numbers := sourceMap.filterMap (fun src => jGet src "line"),
    code_snippet := some (sourceMap.foldl
      (fun acc src =>
        match jGet src "source" with
        | some s => acc ++ jStr s ++ "\n"
        | none => acc) ""),
    swc_id := some (jGetD issue "swc-id" (Json.str "")),
    confidence := some (jGetD issue "confidence" (Json.str "Unknown")) }

/-- re.findall for a pattern with two capturing groups: the list of captured
pairs of every non-overlapping match. -/
def reFindAllPairs (pat s : String) : List (String × String) :=
  match parsePattern pat with
  | none => []
  | some (re, ci) =>
      (reFindIter re ci s.toList).map (fun t =>
        ((match groupSpan t.2.2 1 with
          | some (a, b) => sliceChars s.toList a b
          | none => ""),
         (match groupSpan t.2.2 2 with
          | some (a, b) => sliceChars s.toList a b
          | none => "")))

/-- Digits of a decimal numeral to a Nat (int() on a digit-only capture). -/
def digitsToNat (s : String) : Nat :=
  s.toList.foldl (fun n c => n * 10 + (c.toNat - 48)) 0

/-- The first "line N" number mentioned in a fallback issue body. -/
def searchLineNumber (content : String) : Option Nat :=
  match pyReSearch "line (\\d+)" content false with
  | some (_, _, gs) =>
      (match groupSpan gs 1 with
       | some (a, b) => some (digitsToNat (sliceChars content.toList a b))
       | none => none)
  | none => none

/-- The per-issue dict built by the textual fallback path; a line number of
0 is falsy in Python and yields an empty line_numbers list. -/
def mythFallbackIssue (p : String × String) : MythIssue :=
  { title := Json.str p.1,
    description := Json.str (pyTake 200 (pyStrip p.2)),
    severity := "Unknown",
    line_numbers :=
      (match searchLineNumber p.2 with
       | some n => if n ≠ 0 then [Json.num (toString n)] else []
       | none => []),
    code_snippet := none,
    swc_id := none,
    confidence := none }

/-- The issue block pattern of the Mythril textual fallback. -/
def mythFallbackPattern : String :=
  "=== (\\w+) ===\\n([\\s\\S]+?)(?=\\n===|\\Z)"

/-- MythrilAnalyzer.parse_results.  The function is total: a JSON decode
failure takes the fallback branch (the source catches JSONDecodeError), so no
input makes it raise.  A top-level JSON value that is not an object yields no
issues (the source would raise AttributeError there, a path no claim
exercises and no caller reaches with tool output). -/
def mythril_parse_results (raw_output : String) : MythResult :=
  if pyStrip raw_output ≠ "" then
    match jsonLoads raw_output with
    | some mythril_results =>
        let issues := (jArr (jGetD mythril_results "issues" (Json.arr []))).map parseMythIssue
        { tool := "Mythril",
          issues := issues,
          raw_output := if issues.isEmpty then some (pyTake 1000 raw_output) else none,
          error_parsing := none,
          success := none }
    | none =>
        { tool := "Mythril",
          issues := (reFindAllPairs mythFallbackPattern raw_output).map mythFallbackIssue,
          raw_output := some (pyTake 1000 raw_output),
          error_parsing := some "Could not parse Mythril JSON output",
          success := none }
  else
    { tool := "Mythril", issues := [], raw_output := none, error_parsing := none,
      success := none }

/-- The tail of MythrilAnalyzer.analyze after a completed tool run (lines
60-61): the parse result with success set to True — even when parsing fell
back because the output was not valid JSON. -/
def mythril_analyze_parse_step (stdout : String) : MythResult :=
  { mythril_parse_results stdout with success := some true }

/-! ## Claim C3 -/

/-- C3 counterexample: the claim says the parse/analyze path returns
success=false on invalid structured output; on the concrete input
"\x7bnot json" parse_results leaves success absent and the analyze path sets
success to True, never to false. -/
theorem C3_adapter_success_counterexample :
    (mythril_parse_results "\x7bnot json").success = none ∧
    (mythril_analyze_parse_step "\x7bnot json").success = some true ∧
    (mythril_analyze_parse_step "\x7bnot json").success ≠ some false := by
  refine ⟨by rfl, by rfl, ?_⟩
  intro h
  rw [show (mythril_analyze_parse_step "\x7bnot json").success = some true from rfl] at h
  simp at h

/-- C3 (amended): for every input that is not valid JSON but has
non-whitespace content, parse_results never raises (it is total), returns the
fixed non-empty error_parsing message with the raw output preserved truncated
to 1000 characters, but does not set success=false: parse_results leaves
success absent and the analyze path afterwards sets success=true. -/
theorem C3_parse_failure_fields (raw : String)
    (hjson : jsonLoads raw = none) (hne : pyStrip raw ≠ "") :
    (mythril_parse_results raw).error_parsing = some "Could not parse Mythril JSON output" ∧
    (mythril_parse_results raw).raw_output = some (pyTake 1000 raw) ∧
    (mythril_parse_results raw).success = none ∧
    (mythril_analyze_parse_step raw).success = some true := by
  have hbranch : mythril_parse_results raw =
      { tool := "Mythril",
        issues := (reFindAllPairs mythFallbackPattern raw).map mythFallbackIssue,
        raw_output := some (pyTake 1000 raw),
        error_parsing := some "Could not parse Mythril JSON output",
        success := none } := by
    unfold mythril_parse_results
    rw [if_pos hne, hjson]
  refine ⟨by rw [hbranch], by rw [hbranch], by rw [hbranch], ?_⟩
  unfold mythril_analyze_parse_step
  rw [hbranch]

/-- C3 witness: the amended theorem applied at the concrete invalid input
"\x7bnot json". -/
theorem C3_parse_failure_fields_witness :
    (mythril_parse_results "\x7bnot json").error_parsing =
      some "Could not parse Mythril JSON output" ∧
    (mythril_parse_results "\x7bnot json").raw_output = some (pyTake 1000 "\x7bnot json") ∧
    (mythril_parse_results "\x7bnot json").success = none ∧
    (mythril_analyze_parse_step "\x7bnot json").success = some true :=
  C3_parse_failure_fields "\x7bnot json" (by rfl) (by decide)

/-! ## LegalContractRiskScorer — imp_risk_scorer.py lines 169-430.

The scorer's pattern table is the hard-coded default_patterns dict, which
_load_risk_patterns returns whenever the optional patterns file is absent
(the configuration-file branch is filesystem input outside the embedded
core). -/

/-- One clause/term pattern entry of the legal default_patterns table. -/
structure ClausePattern where
  keywords : List String
  regex_patterns : List String
  risk_level : RiskLevel
  description : String
  category : String
  remediation : String

/-- default_patterns['missing_clauses']. -/
def default_missing_clauses : List (String × ClausePattern) :=
  [("termination",
    { keywords := ["termination", "terminate", "end of agreement"],
      regex_patterns := ["(?i)termination\\s+clause"],
      risk_level := RiskLevel.HIGH,
      description := "Missing or inadequate termination clause",
      category := "Completeness",
      remediation := "Add a clear termination clause that specifies conditions and process." }),
   ("confidentiality",
    { keywords := ["confidential", "confidentiality", "non-disclosure"],
      regex_patterns := ["(?i)confidential\\s+information"],
      risk_level := RiskLevel.MEDIUM,
      description := "Missing confidentiality clause",
      category := "Completeness",
      remediation := "Add a comprehensive confidentiality clause." }),
   ("liability",
    { keywords := ["liability", "indemnification", "indemnify"],
      regex_patterns := ["(?i)limitation\\s+of\\s+liability"],
      risk_level := RiskLevel.HIGH,
      description := "Missing liability clause",
      category := "Completeness",
      remediation := "Add a liability clause that clearly defines limits." })]

/-- default_patterns['ambiguous_terms']. -/
def default_ambiguous_terms : List (String × ClausePattern) :=
  [("reasonable",
    { keywords := ["reasonable"],
      regex_patterns := ["(?i)reasonable\\s+(?:efforts|time|notice)"],
      risk_level := RiskLevel.MEDIUM,
      description := "Use of ambiguous term \"reasonable\"",
      category := "Clarity",
      remediation := "Define specific criteria or metrics instead of using subjective terms." }),
   ("substantial",
    { keywords := ["substantial", "substantially"],
      regex_patterns := ["(?i)substantial\\s+(?:completion|performance)"],
      risk_level := RiskLevel.MEDIUM,
      description := "Use of ambiguous term \"substantial\"",
      category := "Clarity",
      remediation := "Define specific criteria for completion or performance." })]

/-- Python str.replace applied to turn underscores into spaces in ids. -/
def replaceUnderscores (s : String) : String :=
  (s.toList.map (fun c => if c = '_' then ' ' else c)).asString

/-- LegalContractRiskScorer._check_missing_clauses: keyword containment on
the lower-cased text first, regex search only when no keyword was found; a
clause whose patterns all miss yields one vulnerability. -/
def _check_missing_clauses (patterns : List (String × ClausePattern))
    (contract_text : String) (st : RiskScore) : RiskScore :=
  let contract_text_lower := pyLower contract_text
  patterns.foldl (fun st p =>
    let info := p.2
    let found0 := info.keywords.any (fun kw => pyContains contract_text_lower (pyLower kw))
    let found :=
      if !found0 && !info.regex_patterns.isEmpty then
        info.regex_patterns.any (fun pat => (pyReSearch pat contract_text false).isSome)
      else found0
    if found then st
    else
      st.add_vulnerability ("Missing " ++ replaceUnderscores p.1 ++ " clause")
        info.description info.risk_level info.category none (some info.remediation)) st

/-- The per-keyword occurrence scan of _check_ambiguous_terms: every
occurrence of the keyword (case-insensitive find loop) yields one
vulnerability with a plus/minus 50 character context. -/
def scanAmbiguousKeyword (contract_text : String) (info : ClausePattern) (kw : String)
    (st : RiskScore) : RiskScore :=
  let contract_lower := pyLower contract_text
  let keyword_lower := pyLower kw
  let n := contract_text.length
  let rec go : Nat → Nat → RiskScore → RiskScore
    | 0, _, st => st
    | Nat.succ fuel, start_pos, st =>
        match pyFindFrom contract_lower keyword_lower start_pos with
        | none => st
        | some pos =>
            let context_start := pos - 50
            let context_end := Nat.min n (pos + kw.length + 50)
            let context := pySlice contract_text context_start context_end
            let st2 := st.add_vulnerability ("Ambiguous term: " ++ kw) info.description
              info.risk_level info.category (some ("..." ++ context ++ "..."))
              (some info.remediation)
            go fuel (pos + kw.length) st2
  go (n + 2) 0 st

/-- The per-pattern regex scan of _check_ambiguous_terms: every match yields
one vulnerability with a plus/minus 30 character context and the matched text
in the name. -/
def scanAmbiguousRegex (contract_text : String) (info : ClausePattern) (pat : String)
    (st : RiskScore) : RiskScore :=
  match parsePattern pat with
  | none => st
  | some (re, ci) =>
      (reFindIter re ci contract_text.toList).foldl (fun st m =>
        let context := pySlice contract_text (m.1 - 30)
          (Nat.min contract_text.length (m.2.1 + 30))
        st.add_vulnerability
          ("Ambiguous pattern: " ++ sliceChars contract_text.toList m.1 m.2.1)
          info.description info.risk_level info.category
          (some ("..." ++ context ++ "...")) (some info.remediation)) st

/-- LegalContractRiskScorer._check_ambiguous_terms. -/
def _check_ambiguous_terms (patterns : List (String × ClausePattern))
    (contract_text : String) (st : RiskScore) : RiskScore :=
  patterns.foldl (fun st p =>
    let st2 := p.2.keywords.foldl
      (fun st kw => scanAmbiguousKeyword contract_text p.2 kw st) st
    p.2.regex_patterns.foldl
      (fun st pat => scanAmbiguousRegex contract_text p.2 pat st) st2) st

/-- One entry of the rights_patterns table in _check_unbalanced_rights. -/
structure RightInfo where
  patterns : List String
  risk_level : RiskLevel
  description : String
  category : String
  remediation : String

/-- The rights_patterns dict of _check_unbalanced_rights. -/
def rights_patterns : List (String × RightInfo) :=
  [("termination_rights",
    { patterns := ["(?i)only\\s+[\\w\\s]+\\s+may\\s+terminate",
                   "(?i)right\\s+to\\s+terminate\\s+at\\s+any\\s+time\\s+without\\s+(?:reason|cause|notice)"],
      risk_level := RiskLevel.HIGH,
      description := "Unbalanced termination rights",
      category := "Fairness",
      remediation := "Consider adding reciprocal termination rights to ensure fairness." }),
   ("liability_caps",
    { patterns := ["(?i)([\\w\\s]+)\\s+shall\\s+not\\s+be\\s+liable",
                   "(?i)liability\\s+of\\s+([\\w\\s]+)\\s+is\\s+limited"],
      risk_level := RiskLevel.MEDIUM,
      description := "Potentially unbalanced liability limitations",
      category := "Fairness",
      remediation := "Consider balanced liability provisions for both parties." }),
   ("indemnification",
    { patterns := ["(?i)([\\w\\s]+)\\s+shall\\s+indemnify",
                   "(?i)indemnification\\s+by\\s+([\\w\\s]+)"],
      risk_level := RiskLevel.MEDIUM,
      description := "One-sided indemnification obligations",
      category := "Fairness",
      remediation := "Consider mutual indemnification provisions where appropriate." })]

/-- Bump a party's tally in the matches_by_party dict. -/
def bumpParty (m : List (String × Nat)) (party : String) : List (String × Nat) :=
  match assocLookup m party with
  | none => m ++ [(party, 1)]
  | some c => assocSet m party (c + 1)

/-- Python max(items, key=count): the first entry attaining the maximal
count, in insertion order. -/
def maxParty (m : List (String × Nat)) : String :=
  (m.foldl (fun best p =>
    match best with
    | none => some p
    | some b => if p.2 > b.2 then some p else some b) none).elim "" Prod.fst

/-- The per-pattern match scan of _check_unbalanced_rights: each match adds
one vulnerability; when the pattern has a capture group, group 1 (stripped)
names the favoured party and is tallied. -/
def scanRightPattern (contract_text : String) (right_id : String) (info : RightInfo)
    (pat : String) (acc : List (String × Nat) × RiskScore) :
    List (String × Nat) × RiskScore :=
  match parsePatternG pat with
  | none => acc
  | some (re, ci, gcount) =>
      (reFindIter re ci contract_text.toList).foldl (fun acc m =>
        let context := pySlice contract_text (m.1 - 50)
          (Nat.min contract_text.length (m.2.1 + 50))
        let party : Option String :=
          if gcount > 0 then
            match groupSpan m.2.2 1 with
            | some (a, b) => some (pyStrip (sliceChars contract_text.toList a b))
            | none => none
          else none
        let tally :=
          match party with
          | some pname => bumpParty acc.1 pname
          | none => acc.1
        let st2 := acc.2.add_vulnerability
          ("Potentially unbalanced " ++ replaceUnderscores right_id)
          (info.description ++ (match party with
                                | some pname => " favoring " ++ pname
                                | none => ""))
          info.risk_level info.category
          (some ("..." ++ context ++ "...")) (some info.remediation)
        (tally, st2)) acc

/-- Minimum of a list of counts (the lists passed are non-empty). -/
def minCount : List Nat → Nat
  | [] => 0
  | c :: cs => cs.foldl Nat.min c

/-- Maximum of a list of counts. -/
def maxCount (l : List Nat) : Nat :=
  l.foldl Nat.max 0

/-- LegalContractRiskScorer._check_unbalanced_rights. -/
def _check_unbalanced_rights (contract_text : String) (st : RiskScore) : RiskScore :=
  rights_patterns.foldl (fun st p =>
    let info := p.2
    let scanned := info.patterns.foldl
      (fun acc pat => scanRightPattern contract_text p.1 info pat acc) ([], st)
    let matches_by_party := scanned.1
    let st2 := scanned.2
    if matches_by_party.length > 1 then
      let counts := matches_by_party.map Prod.snd
      if maxCount counts > 2 * minCount counts then
        st2.add_vulnerability ("Unbalanced " ++ replaceUnderscores p.1)
          ("Rights are unbalanced, favoring " ++ maxParty matches_by_party)
          info.risk_level info.category none
          (some ("Review contract to ensure " ++ replaceUnderscores p.1 ++
            " are balanced between parties."))
      else st2
    else st2) st

/-- LegalContractRiskScorer.analyze_contract: an empty contract text short
circuits into the single Empty-contract Critical/Completeness vulnerability;
otherwise the three check passes run in order. -/
def analyze_contract (contract_text : String) (st : RiskScore) : RiskScore :=
  if contract_text = "" then
    st.add_vulnerability "Empty contract"
      "The contract text is empty or could not be extracted"
      RiskLevel.CRITICAL "Completeness" none
      (some "Provide a valid contract document with proper text content.")
  else
    let st1 := _check_missing_clauses default_missing_clauses contract_text st
    let st2 := _check_ambiguous_terms default_ambiguous_terms contract_text st1
    _check_unbalanced_rights contract_text st2

/-! ## SmartContractRiskScorer — imp_risk_scorer.py lines 433-646 -/

/-- One entry of the _load_vulnerability_patterns table. -/
structure VulnInfo where
  patterns : List String
  risk_level : RiskLevel
  description : String
  category : String
  remediation : String

/-- SmartContractRiskScorer._load_vulnerability_patterns. -/
def vulnerability_patterns : List (String × VulnInfo) :=
  [("reentrancy",
    { patterns := ["\\.call\\\x7bvalue:\\s*\\w+\\\x7d\\(",
                   "\\.call\\.value\\(\\w+\\)"],
      risk_level := RiskLevel.HIGH,
      description := "Potential reentrancy vulnerability",
      category := "Security",
      remediation := "Use ReentrancyGuard or Checks-Effects-Interactions pattern." }),
   ("unchecked_return",
    { patterns := ["\\.call\\\x7b.+\\\x7d\\([^;]+(?!\\s*require)"],
      risk_level := RiskLevel.MEDIUM,
      description := "Unchecked return value from external call",
      category := "Security",
      remediation := "Check return values with require() statements." }),
   ("tx_origin",
    { patterns := ["tx\\.origin\\s*==",
                   "require\\(\\s*tx\\.origin\\s*=="],
      risk_level := RiskLevel.HIGH,
      description := "Using tx.origin for authorization",
      category := "Security",
      remediation := "Use msg.sender instead of tx.origin for authorization checks." }),
   ("timestamp_dependency",
    { patterns := ["block\\.timestamp",
                   "now\\s*[<>=]"],
      risk_level := RiskLevel.MEDIUM,
      description := "Timestamp dependency",
      category := "Security",
      remediation := "Avoid using block.timestamp for critical logic." }),
   ("integer_overflow",
    { patterns := ["\\w+\\s*\\+=\\s*\\w+(?!.*SafeMath)",
                   "\\w+\\s*\\+\\s*\\w+(?!.*SafeMath)"],
      risk_level := RiskLevel.MEDIUM,
      description := "Potential integer overflow/underflow",
      category := "Security",
      remediation := "Use SafeMath library or Solidity 0.8.0+ built-in overflow checks." })]

/-- 1-based line number of a character position (newline count of the
prefix plus one). -/
def lineNumberAt (code : String) (pos : Nat) : Nat :=
  pyCountChar (pySlice code 0 pos) '\n' + 1

/-- SmartContractRiskScorer._check_vulnerability_patterns: every match of
every pattern yields one vulnerability, located by its physical line. -/
def _check_vulnerability_patterns (vps : List (String × VulnInfo)) (contract_code : String)
    (st : RiskScore) : RiskScore :=
  vps.foldl (fun st p =>
    p.2.patterns.foldl (fun st pat =>
      match parsePattern pat with
      | none => st
      | some (re, ci) =>
          (reFindIter re ci contract_code.toList).foldl (fun st m =>
            let line_start :=
              match pyRfindBefore contract_code "\n" m.1 with
              | some i => i + 1
              | none => m.1 - 40
            let line_end :=
              match pyFindFrom contract_code "\n" m.2.1 with
              | some j => j
              | none => Nat.min contract_code.length (m.2.1 + 40)
            let context := pyStrip (pySlice contract_code line_start line_end)
            let line_number := lineNumberAt contract_code m.1
            st.add_vulnerability p.2.description
              (p.2.description ++ " detected at line " ++ toString line_number)
              p.2.risk_level p.2.category
              (some ("Line " ++ toString line_number ++ ": " ++ context))
              (some p.2.remediation)) st) st) st

/-- SmartContractRiskScorer._find_closing_brace: brace scan returning the
index where the running count returns to zero (none models the -1
sentinel; starting right after an opening brace the count can only reach
zero again if the body opens further braces, exactly as in the source). -/
def _find_closing_brace (text : String) (start_pos : Nat) : Option Nat :=
  let rec go : List Char → Nat → Int → Option Nat
    | [], _, _ => none
    | c :: cs, i, stack =>
        if c = Char.ofNat 123 then go cs (i + 1) (stack + 1)
        else if c = Char.ofNat 125 then
          if stack - 1 = 0 then some i else go cs (i + 1) (stack - 1)
        else go cs (i + 1) stack
  go (text.toList.drop start_pos) start_pos 0

/-- SmartContractRiskScorer._analyze_gas_usage: storage writes inside for
loops and large struct definitions. -/
def _analyze_gas_usage (contract_code : String) (st : RiskScore) : RiskScore :=
  let st1 :=
    match parsePattern "for\\s*\\([^;]+;[^;]+;[^\\)]+\\)\\s*\\\x7b" with
    | none => st
    | some (re, ci) =>
        (reFindIter re ci contract_code.toList).foldl (fun st m =>
          let line_number := lineNumberAt contract_code m.1
          let context := pySlice contract_code (m.1 - 20)
            (Nat.min contract_code.length (m.2.1 + 40))
          let loop_body :=
            match _find_closing_brace contract_code m.2.1 with
            | some e => pySlice contract_code m.2.1 e
            | none => pySlice contract_code m.2.1 (m.2.1 + 200)
          if (pyReSearch "\\w+\\s*\\[.+\\]\\s*=" loop_body false).isSome then
            st.add_vulnerability "Gas-intensive storage operations in loop"
              "Loop contains storage write operations which can be gas-intensive"
              RiskLevel.MEDIUM "Gas Optimization"
              (some ("Line " ++ toString line_number ++ ": " ++ context))
              (some "Consider optimizing storage access patterns or using memory variables within loops.")
          else st) st
  match parsePatternG "\\bstruct\\b[^\x7b]*\\\x7b([^\x7d]*)\\\x7d" with
  | none => st1
  | some (re, ci, _) =>
      (reFindIter re ci contract_code.toList).foldl (fun st m =>
        let body :=
          match groupSpan m.2.2 1 with
          | some (a, b) => sliceChars contract_code.toList a b
          | none => ""
        if pyCountChar body ';' > 10 then
          let line_number := lineNumberAt contract_code m.1
          st.add_vulnerability "Large struct definition"
            ("Large struct definition at line " ++ toString line_number ++
              " may use excessive storage")
            RiskLevel.LOW "Gas Optimization"
            (some ("Line " ++ toString line_number))
            (some "Consider breaking large structs into smaller, logically grouped structs.")
        else st) st1

/-- Deduplicate preserving first occurrence (Python set construction, used
only for its size). -/
def dedupStr (l : List String) : List String :=
  l.foldl (fun acc x => if x ∈ acc then acc else acc ++ [x]) []

/-- re.findall for a pattern with one capturing group. -/
def reFindAll1 (pat s : String) : List String :=
  match parsePattern pat with
  | none => []
  | some (re, ci) =>
      (reFindIter re ci s.toList).map (fun t =>
        match groupSpan t.2.2 1 with
        | some (a, b) => sliceChars s.toList a b
        | none => "")

/-- SmartContractRiskScorer._check_best_practices: public/external functions
without visible access control, and state changes without matching event
emissions. -/
def _check_best_practices (contract_code : String) (st : RiskScore) : RiskScore :=
  let st1 :=
    match parsePatternG "function\\s+(\\w+)\\s*\\([^\\)]*\\)\\s*(public|external)(?!\\s+view|\\s+pure|\\s+constant)(?!.*onlyOwner|.*require\\(|.*\\bif\\b)" with
    | none => st
    | some (re, ci, _) =>
        (reFindIter re ci contract_code.toList).foldl (fun st m =>
          let function_name :=
            match groupSpan m.2.2 1 with
            | some (a, b) => sliceChars contract_code.toList a b
            | none => ""
          if pyLower function_name ∉ ["constructor", "initialize", "fallback", "receive"] then
            let line_number := lineNumberAt contract_code m.1
            let context := pySlice contract_code (m.1 - 20)
              (Nat.min contract_code.length (m.2.1 + 40))
            st.add_vulnerability "Missing access control"
              ("Function \x27" ++ function_name ++ "\x27 may lack proper access control")
              RiskLevel.MEDIUM "Security"
              (some ("Line " ++ toString line_number ++ ": " ++ context))
              (some "Add access modifiers (e.g., onlyOwner) or explicit checks for authorization.")
          else st) st
  let state_vars_changed :=
    dedupStr (reFindAll1 "(\\w+)\\s*\\[.+\\]\\s*=" contract_code)
  let event_emissions :=
    dedupStr (reFindAll1 "emit\\s+(\\w+)\\s*\\(" contract_code)
  if state_vars_changed.length > 2 &&
      2 * event_emissions.length < state_vars_changed.length then
    st1.add_vulnerability "Insufficient event emissions"
      "Contract appears to make state changes without emitting sufficient events"
      RiskLevel.LOW "Best Practices" none
      (some "Emit events for important state changes to improve contract observability.")
  else st1

/-- SmartContractRiskScorer.analyze_contract_code: an empty code string short
circuits into the single Empty-contract-code Critical/Completeness
vulnerability; otherwise the three check passes run in order. -/
def analyze_contract_code (contract_code : String) (st : RiskScore) : RiskScore :=
  if contract_code = "" then
    st.add_vulnerability "Empty contract code" "The contract code is empty"
      RiskLevel.CRITICAL "Completeness" none (some "Provide valid contract code.")
  else
    let st1 := _check_vulnerability_patterns vulnerability_patterns contract_code st
    let st2 := _analyze_gas_usage contract_code st1
    _check_best_practices contract_code st2

/-! ## Claim C10 -/

/-- C10: on empty input both scorers short-circuit: the returned RiskScore is
exactly the fresh score with the single Empty-contract vulnerability added —
Critical level, category "Completeness", no other check performed — whose
weight makes total_score 15 and whose overall risk level is High (15 < 18),
not Critical. -/
theorem C10_empty_input_scores :
    analyze_contract "" RiskScore.init =
      RiskScore.init.add_vulnerability "Empty contract"
        "The contract text is empty or could not be extracted"
        RiskLevel.CRITICAL "Completeness" none
        (some "Provide a valid contract document with proper text content.") ∧
    analyze_contract_code "" RiskScore.init =
      RiskScore.init.add_vulnerability "Empty contract code" "The contract code is empty"
        RiskLevel.CRITICAL "Completeness" none (some "Provide valid contract code.") ∧
    (analyze_contract "" RiskScore.init).vulnerabilities.length = 1 ∧
    (analyze_contract_code "" RiskScore.init).vulnerabilities.length = 1 ∧
    ((analyze_contract "" RiskScore.init).vulnerabilities.map
      (fun v => (v.risk_level, v.category))) = [(RiskLevel.CRITICAL, "Completeness")] ∧
    ((analyze_contract_code "" RiskScore.init).vulnerabilities.map
      (fun v => (v.risk_level, v.category))) = [(RiskLevel.CRITICAL, "Completeness")] ∧
    (analyze_contract "" RiskScore.init).total_score = 15 ∧
    (analyze_contract_code "" RiskScore.init).total_score = 15 ∧
    (analyze_contract "" RiskScore.init).get_overall_risk_level = RiskLevel.HIGH ∧
    (analyze_contract_code "" RiskScore.init).get_overall_risk_level = RiskLevel.HIGH ∧
    RiskLevel.HIGH ≠ RiskLevel.CRITICAL := by
  decide

end ContractRisk
